import Mathlib

/-!
Verification development for the DataReady.io interview orchestrator core.

This file gives a shallow embedding, in Lean 4, of the session state machine
and its adaptive question/difficulty/follow-up control loop:

* `src/models/interview.py` — the session model (`InterviewSession`,
  `InterviewSetup`, `QuestionResponse`, `InterviewState`, `InterviewContext`)
  and its query/mutation methods;
* `src/models/roles.py` — roles and the skill catalog (only the fields the
  orchestrator core reads: skill id and applicable roles);
* `src/models/question.py` and `src/models/evaluation.py` — the question and
  evaluation payload shapes;
* `src/core/evaluation_engine.py` — the evaluation engine with its heuristic
  fallback;
* `src/core/audio_processor.py` — the text-to-speech entry point and its
  internal failure handling;
* `src/core/interview_orchestrator.py` — the orchestrator: state transitions,
  ask/submit/decide/follow-up flow, score folding, report generation.

Modelling conventions:
* Python `float` is modelled as `Rat` (the claims under study do not depend on
  floating-point rounding), Python `int` as `Int` or `Nat`, `datetime` as a
  `Nat` timestamp supplied by the caller (`now`), `uuid4` and `random.choice`
  as explicit `uid`/`rand` parameters.
* Python sets are modelled as duplicate-free-by-construction `List String`
  (insert-if-absent); Python dicts as insertion-ordered association lists.
* Python exceptions are modelled as `Except`: a raised exception is an
  `Except.error` value, and exception propagation is the error short-circuit.
  Collaborators that the code calls without a surrounding try/except are
  modelled as functions that may return `Except.error` (an uncaught raise).
* In Python the orchestrator mutates the very session object held by the
  store, so local mutation is immediately visible to later store reads; the
  embedding threads the store explicitly and writes the session back at each
  mutation point, which is observationally the same.
* Logging is a side effect that never alters the session or the store, so
  it is not represented.  The Langfuse trace hooks are represented:
  `transition_state` (on entering COMPLETE or ERROR) and `start_interview`
  call `end_interview_trace` / `start_interview_trace` on the configured AI
  reasoning collaborator with no surrounding try/except, and the shipped
  `AIReasoningLayer` (`src/core/ai_reasoning.py`) defines neither method,
  so on it the attribute lookup raises `AttributeError`, which propagates
  out of the orchestrator call.  The hooks never alter the session or the
  store; only their return-or-raise behaviour is modelled.
* String handling (`str.lower`, `\w` in regexes) is modelled at ASCII level.
-/

/-- `InterviewMode` from `src/models/interview.py`. -/
inductive InterviewMode where
  | STRUCTURED
  | STRUCTURED_FOLLOWUP
  | STRESS
deriving DecidableEq, Repr

/-- The `.value` string of an `InterviewMode` member. -/
def InterviewMode.value : InterviewMode → String
  | .STRUCTURED => "structured"
  | .STRUCTURED_FOLLOWUP => "structured_followup"
  | .STRESS => "stress"

/-- `InterviewState` from `src/models/interview.py`. -/
inductive InterviewState where
  | SETUP
  | READY
  | ASKING
  | LISTENING
  | PROCESSING
  | EVALUATING
  | DECIDING
  | COMPLETE
  | GENERATING_REPORT
  | FINISHED
  | PAUSED
  | ERROR
  | CANCELLED
deriving DecidableEq, Repr

/-- Rendering of an `InterviewState` member used in diagnostics (the Python
source interpolates the enum member into the error message; we model that
rendering by the qualified member name). -/
def stateName : InterviewState → String
  | .SETUP => "InterviewState.SETUP"
  | .READY => "InterviewState.READY"
  | .ASKING => "InterviewState.ASKING"
  | .LISTENING => "InterviewState.LISTENING"
  | .PROCESSING => "InterviewState.PROCESSING"
  | .EVALUATING => "InterviewState.EVALUATING"
  | .DECIDING => "InterviewState.DECIDING"
  | .COMPLETE => "InterviewState.COMPLETE"
  | .GENERATING_REPORT => "InterviewState.GENERATING_REPORT"
  | .FINISHED => "InterviewState.FINISHED"
  | .PAUSED => "InterviewState.PAUSED"
  | .ERROR => "InterviewState.ERROR"
  | .CANCELLED => "InterviewState.CANCELLED"

/-- `Role` from `src/models/roles.py`. -/
inductive Role where
  | JUNIOR_DE
  | MID_DE
  | SENIOR_DE
  | STAFF_DE
  | PRINCIPAL_DE
deriving DecidableEq, Repr

/-- `CloudPreference` from `src/models/roles.py`. -/
inductive CloudPreference where
  | AWS
  | GCP
  | AZURE
  | MULTI
  | AGNOSTIC
deriving DecidableEq, Repr

/-- `Skill` from `src/models/roles.py`, restricted to the two fields the
orchestrator core reads (`id` and `applicable_roles`); the display metadata
(`name`, `category`, `description`, `cloud_specific`) is never consulted by
the session/orchestrator code under verification. -/
structure Skill where
  id : String
  applicable_roles : List Role
deriving DecidableEq, Repr

/-- `SKILL_CATALOG` from `src/models/roles.py`, in source (insertion) order. -/
def SKILL_CATALOG : List Skill := [
  ⟨"sql_basics", [.JUNIOR_DE]⟩,
  ⟨"sql_joins", [.JUNIOR_DE, .MID_DE]⟩,
  ⟨"sql_aggregations", [.JUNIOR_DE, .MID_DE]⟩,
  ⟨"sql_subqueries", [.JUNIOR_DE, .MID_DE]⟩,
  ⟨"sql_window_functions", [.MID_DE, .SENIOR_DE]⟩,
  ⟨"sql_ctes", [.MID_DE, .SENIOR_DE]⟩,
  ⟨"sql_optimization_basics", [.MID_DE, .SENIOR_DE]⟩,
  ⟨"query_optimization", [.SENIOR_DE, .STAFF_DE]⟩,
  ⟨"etl_concepts", [.JUNIOR_DE]⟩,
  ⟨"etl_pipeline_design", [.MID_DE, .SENIOR_DE]⟩,
  ⟨"batch_processing", [.MID_DE, .SENIOR_DE]⟩,
  ⟨"incremental_loads", [.MID_DE, .SENIOR_DE]⟩,
  ⟨"spark_fundamentals", [.MID_DE]⟩,
  ⟨"spark_dataframes", [.MID_DE, .SENIOR_DE]⟩,
  ⟨"spark_tuning", [.SENIOR_DE, .STAFF_DE]⟩,
  ⟨"data_skew_handling", [.SENIOR_DE, .STAFF_DE]⟩,
  ⟨"stream_processing", [.SENIOR_DE, .STAFF_DE]⟩,
  ⟨"kafka_architecture", [.SENIOR_DE, .STAFF_DE]⟩,
  ⟨"exactly_once_semantics", [.SENIOR_DE, .STAFF_DE]⟩,
  ⟨"airflow_basics", [.MID_DE, .SENIOR_DE]⟩,
  ⟨"dag_design", [.MID_DE, .SENIOR_DE]⟩,
  ⟨"distributed_computing", [.SENIOR_DE, .STAFF_DE]⟩,
  ⟨"cap_theorem", [.SENIOR_DE, .STAFF_DE]⟩,
  ⟨"data_platform_design", [.SENIOR_DE, .STAFF_DE]⟩,
  ⟨"lakehouse_architecture", [.SENIOR_DE, .STAFF_DE]⟩,
  ⟨"enterprise_data_architecture", [.STAFF_DE, .PRINCIPAL_DE]⟩,
  ⟨"data_governance", [.STAFF_DE, .PRINCIPAL_DE]⟩,
  ⟨"data_security", [.SENIOR_DE, .STAFF_DE]⟩,
  ⟨"data_observability", [.SENIOR_DE, .STAFF_DE]⟩,
  ⟨"pipeline_monitoring", [.MID_DE, .SENIOR_DE]⟩,
  ⟨"lineage_tracking", [.SENIOR_DE, .STAFF_DE]⟩,
  ⟨"data_quality_concepts", [.MID_DE, .SENIOR_DE]⟩,
  ⟨"data_testing", [.MID_DE, .SENIOR_DE]⟩,
  ⟨"data_contracts", [.STAFF_DE, .PRINCIPAL_DE]⟩,
  ⟨"cloud_fundamentals", [.JUNIOR_DE]⟩,
  ⟨"cloud_data_services", [.MID_DE, .SENIOR_DE]⟩,
  ⟨"cloud_cost_optimization", [.SENIOR_DE, .STAFF_DE]⟩,
  ⟨"multi_cloud_strategy", [.STAFF_DE, .PRINCIPAL_DE]⟩,
  ⟨"git_basics", [.JUNIOR_DE]⟩,
  ⟨"linux_cli_basics", [.JUNIOR_DE]⟩,
  ⟨"python_fundamentals", [.JUNIOR_DE, .MID_DE]⟩]

/-- `get_skills_for_role` from `src/models/roles.py`: the catalog entries
applicable to `role`, in catalog order. -/
def get_skills_for_role (role : Role) : List Skill :=
  SKILL_CATALOG.filter (fun skill => skill.applicable_roles.contains role)

/-- `InterviewSetup` from `src/models/interview.py` (defaults as in the
pydantic model). -/
structure InterviewSetup where
  years_of_experience : Nat
  target_role : Role
  cloud_preference : CloudPreference := .AGNOSTIC
  include_skills : List String := []
  exclude_skills : List String := []
  mode : InterviewMode := .STRUCTURED_FOLLOWUP
  max_questions : Nat := 10
deriving DecidableEq, Repr

/-- `QuestionResponse` from `src/models/interview.py`. The `evaluation`
payload, stored in Python as `evaluation.model_dump()` (an untyped dict), is
modelled by the typed evaluation record serialized from — see
`ResponseEvaluation` below; to keep the definition order simple the field here
stores the five score components and bookkeeping needed by the code that
reads it back, via the `StoredEvaluation` record. -/
structure StoredEvaluation where
  skill_id : String
  overall_score : Rat
deriving DecidableEq, Repr

structure QuestionResponse where
  question_id : String
  question_text : String
  question_audio_url : Option String := none
  skill_id : Option String := none
  expected_points : List String := []
  red_flags : List String := []
  asked_at : Nat
  response_started_at : Option Nat := none
  response_completed_at : Option Nat := none
  response_audio_chunks : List String := []
  response_transcript : Option String := none
  evaluation : Option StoredEvaluation := none
  is_followup : Bool := false
  parent_question_id : Option String := none
  followup_reason : Option String := none
deriving DecidableEq, Repr

/-- One entry of the `current_question_context` conversation buffer: a
`{"role": ..., "content": ...}` dict in the source. -/
structure ContextEntry where
  role : String
  content : String
deriving DecidableEq, Repr

/-- `InterviewSession` from `src/models/interview.py` (field defaults as in
the pydantic model; `session_id`/`created_at` defaults are caller-supplied
since they come from `uuid4()`/`utcnow()`). -/
structure InterviewSession where
  session_id : String
  setup : InterviewSetup
  state : InterviewState := .SETUP
  created_at : Nat
  started_at : Option Nat := none
  completed_at : Option Nat := none
  questions : List QuestionResponse := []
  current_question_index : Nat := 0
  total_core_questions_asked : Nat := 0
  total_followups_asked : Nat := 0
  current_question_followups : Nat := 0
  asked_question_hashes : List String := []
  asked_skills : List String := []
  current_question_context : List ContextEntry := []
  current_difficulty : Int := 5
  difficulty_history : List Int := []
  running_score : Rat := 0
  skill_scores : List (String × List Rat) := []
  error_message : Option String := none
deriving DecidableEq, Repr

/-- Insert into a Python-set-modelled-as-list (no-op when present). -/
def setInsert (l : List String) (x : String) : List String :=
  if l.contains x then l else l ++ [x]

/-- `InterviewSession.get_current_question`. -/
def InterviewSession.get_current_question (s : InterviewSession) :
    Option QuestionResponse :=
  if s.questions.length ≠ 0 ∧ s.current_question_index < s.questions.length then
    s.questions.get? s.current_question_index
  else
    none

/-- Model of Python `str.lower()` (character-wise, encoding-free). -/
def toLowerStr (s : String) : String :=
  String.mk (s.data.map Char.toLower)

/-- Model of Python `str.split()` with no argument: split on whitespace
runs, dropping empty tokens. -/
def splitWs (s : String) : List String :=
  ((s.data.splitOnP Char.isWhitespace).map (fun cs => String.mk cs)).filter
    (fun w => w ≠ "")

/-- Model of Python `str.strip()`: drop leading and trailing whitespace. -/
def trimStr (s : String) : String :=
  String.mk
    (((s.data.dropWhile Char.isWhitespace).reverse.dropWhile
      Char.isWhitespace).reverse)

/-- Model of Python `str.startswith`. -/
def startsWithStr (s pre : String) : Bool :=
  pre.data.isPrefixOf s.data

/-- The stop-word list of `InterviewSession._normalize_question`. -/
def STOP_WORDS : List String :=
  ["the", "a", "an", "is", "are", "was", "were", "be", "been",
   "being", "have", "has", "had", "do", "does", "did", "will",
   "would", "could", "should", "may", "might", "can", "you",
   "your", "me", "my", "how", "what", "when", "where", "why",
   "which", "this", "that", "these", "those", "tell", "explain",
   "describe", "about", "give", "example", "walk", "through"]

/-- A character kept by the `re.sub(r'[^\w\s]', '', text)` step: word
characters (ASCII alphanumeric or underscore) and whitespace survive. -/
def keptChar (c : Char) : Bool :=
  c.isAlphanum || c = '_' || c.isWhitespace

/-- `InterviewSession._normalize_question`: lowercase, strip
non-word/non-space characters, split on whitespace, drop stop words and
tokens of length ≤ 2, keep the first 15 tokens in order, join with spaces. -/
def normalize_question (text : String) : String :=
  let lowered := toLowerStr text
  let stripped := String.mk (lowered.data.filter keptChar)
  let words := splitWs stripped
  let kept := words.filter
    (fun w => !(STOP_WORDS.contains w) && decide (w.length > 2))
  String.intercalate " " (kept.take 15)

/-- `InterviewSession.add_question`. -/
def InterviewSession.add_question (s : InterviewSession)
    (question : QuestionResponse) : InterviewSession :=
  let questions := s.questions ++ [question]
  let current_question_index := questions.length - 1
  let question_hash := normalize_question question.question_text
  let asked_question_hashes := setInsert s.asked_question_hashes question_hash
  let asked_skills :=
    match question.skill_id with
    | some sk => setInsert s.asked_skills sk
    | none => s.asked_skills
  if !question.is_followup then
    { s with
      questions := questions,
      current_question_index := current_question_index,
      asked_question_hashes := asked_question_hashes,
      asked_skills := asked_skills,
      total_core_questions_asked := s.total_core_questions_asked + 1,
      -- cleared for the new core question, then the interviewer entry appended
      current_question_context := [⟨"interviewer", question.question_text⟩],
      current_question_followups := 0 }
  else
    { s with
      questions := questions,
      current_question_index := current_question_index,
      asked_question_hashes := asked_question_hashes,
      asked_skills := asked_skills,
      total_followups_asked := s.total_followups_asked + 1,
      current_question_followups := s.current_question_followups + 1,
      current_question_context :=
        s.current_question_context ++ [⟨"interviewer", question.question_text⟩] }

/-- `InterviewSession.add_response_to_context`. -/
def InterviewSession.add_response_to_context (s : InterviewSession)
    (response : String) : InterviewSession :=
  { s with current_question_context :=
      s.current_question_context ++ [⟨"candidate", response⟩] }

/-- `InterviewSession.is_question_asked`. -/
def InterviewSession.is_question_asked (s : InterviewSession)
    (question_text : String) : Bool :=
  s.asked_question_hashes.contains (normalize_question question_text)

/-- `InterviewSession.is_skill_asked`. -/
def InterviewSession.is_skill_asked (s : InterviewSession)
    (skill_id : String) : Bool :=
  s.asked_skills.contains skill_id

/-- `InterviewSession.should_end_interview`. -/
def InterviewSession.should_end_interview (s : InterviewSession) : Bool :=
  decide (s.total_core_questions_asked ≥ s.setup.max_questions) ||
  [InterviewState.COMPLETE, InterviewState.CANCELLED,
   InterviewState.ERROR].contains s.state

/-- `InterviewSession.get_duration_seconds` (`now` stands for
`datetime.utcnow()`). -/
def InterviewSession.get_duration_seconds (s : InterviewSession)
    (now : Nat) : Rat :=
  match s.started_at with
  | none => 0
  | some start =>
    let e := s.completed_at.getD now
    ((e : Int) - (start : Int) : Int)

/-- `ScoreBreakdown` from `src/models/evaluation.py` (five 0–10 scores). -/
structure ScoreBreakdown where
  technical_correctness : Rat
  depth_of_understanding : Rat
  practical_experience : Rat
  communication_clarity : Rat
  confidence : Rat
deriving DecidableEq, Repr

/-- `ScoreBreakdown.overall_score`: the weighted overall score
(weights .30/.25/.20/.15/.10 written as rationals). -/
def ScoreBreakdown.overall_score (b : ScoreBreakdown) : Rat :=
  b.technical_correctness * (30 / 100) +
  b.depth_of_understanding * (25 / 100) +
  b.practical_experience * (20 / 100) +
  b.communication_clarity * (15 / 100) +
  b.confidence * (10 / 100)

/-- `EvaluationFeedback` from `src/models/evaluation.py`. -/
structure EvaluationFeedback where
  what_went_well : List String := []
  what_was_missing : List String := []
  red_flags : List String := []
  seniority_signals : List String := []
  improvement_suggestions : List String := []
deriving DecidableEq, Repr

/-- `ResponseEvaluation` from `src/models/evaluation.py`. -/
structure ResponseEvaluation where
  question_id : String
  skill_id : String
  transcript : String
  response_duration_seconds : Rat
  scores : ScoreBreakdown
  feedback : EvaluationFeedback
  needs_followup : Bool := false
  followup_reason : Option String := none
  followup_type : Option String := none
  difficulty_delta : Int := 0
  evaluator_notes : Option String := none
deriving DecidableEq, Repr

/-- The serialization of a `ResponseEvaluation` stored onto a question by
`submit_response` (`evaluation.model_dump()`); we keep the two components the
code reads back. -/
def ResponseEvaluation.dump (e : ResponseEvaluation) : StoredEvaluation :=
  ⟨e.skill_id, e.scores.overall_score⟩

/-- `QuestionCategory` from `src/models/question.py`. -/
inductive QuestionCategory where
  | SQL | PYTHON | ETL | SPARK | STREAMING | CLOUD | ORCHESTRATION
  | DATA_MODELING | SYSTEM_DESIGN | DISTRIBUTED | PERFORMANCE
  | GOVERNANCE | OBSERVABILITY
deriving DecidableEq, Repr

/-- `QuestionType` from `src/models/question.py`. -/
inductive QuestionType where
  | CONCEPTUAL | SCENARIO | DESIGN | TROUBLESHOOTING | BEHAVIORAL | TRADEOFF
deriving DecidableEq, Repr

/-- `QuestionDifficulty` from `src/models/question.py`. -/
inductive QuestionDifficulty where
  | EASY | MEDIUM | HARD | EXPERT
deriving DecidableEq, Repr

/-- `Question` from `src/models/question.py` (fields the orchestrator core
touches; `seniority_signals`/`followup_triggers` metadata is never read by
the code under verification). -/
structure Question where
  id : String
  text : String
  context : Option String := none
  category : QuestionCategory
  skill_id : String
  question_type : QuestionType := .CONCEPTUAL
  difficulty : QuestionDifficulty
  difficulty_score : Int
  target_roles : List Role := []
  expected_points : List String := []
  red_flags : List String := []
  is_generated : Bool := true
  source : Option String := none
deriving DecidableEq, Repr

/-- `FollowUpDecision` from `src/models/question.py`. -/
structure FollowUpDecision where
  should_followup : Bool
  reason : String
  followup_type : Option String := none
  followup_question : Option String := none
  difficulty_adjustment : Int := 0
deriving DecidableEq, Repr

/-- `InterviewContext` from `src/models/interview.py`. -/
structure InterviewContext where
  session : InterviewSession
  recent_responses : List QuestionResponse := []
  skills_covered : List String := []
  skills_remaining : List String := []
  performance_trend : String := "stable"
deriving DecidableEq, Repr

/-!  ## Evaluation engine (`src/core/evaluation_engine.py`)  -/

/-- The result dict of `EvaluationEngine._analyze_response`. -/
structure ResponseAnalysis where
  word_count : Nat
  sentence_count : Nat
  technical_keywords : Nat
  experience_keywords : Nat
  structure_keywords : Nat
  technical_score : Rat
  depth_score : Rat
  practical_score : Rat
  clarity_score : Rat
  confidence_score : Rat
  estimated_duration : Rat
deriving DecidableEq, Repr

/-- Substring test (`needle in haystack` in Python). -/
def strContainsSub (hay needle : String) : Bool :=
  hay.toList.tails.any (fun t => needle.toList.isPrefixOf t)

/-- Count occurrences of a character in a string (`str.count` for a
single-character argument, as used on `"."`, `"?"`, `"!"`). -/
def countChar (s : String) (c : Char) : Nat :=
  (s.toList.filter (fun x => x = c)).length

/-- The `technical_keywords` list of `_analyze_response`. -/
def TECHNICAL_KEYWORDS : List String :=
  ["architecture", "system", "design", "pipeline", "data",
   "performance", "scalability", "distributed", "consistency",
   "availability", "latency", "throughput", "batch", "streaming",
   "partition", "replication", "fault-tolerant", "redundancy",
   "optimization", "index", "query", "transformation", "etl",
   "spark", "kafka", "airflow", "sql", "python", "cloud"]

/-- The `experience_keywords` list of `_analyze_response`. -/
def EXPERIENCE_KEYWORDS : List String :=
  ["experience", "worked", "implemented", "built", "designed",
   "led", "managed", "optimized", "improved", "solved",
   "production", "deployed", "migrated", "scaled"]

/-- The `structure_keywords` list of `_analyze_response`. -/
def STRUCTURE_KEYWORDS : List String :=
  ["first", "second", "third", "finally", "additionally",
   "however", "therefore", "because", "in my experience",
   "for example", "specifically", "in conclusion"]

/-- The `hedging_words` list of `_analyze_response`. -/
def HEDGING_WORDS : List String :=
  ["maybe", "perhaps", "might", "possibly", "i think", "i guess"]

/-- `EvaluationEngine._analyze_response`. -/
def analyze_response (transcript : String) : ResponseAnalysis :=
  let words := splitWs transcript
  let word_count := words.length
  let sentence_count :=
    countChar transcript '.' + countChar transcript '?' + countChar transcript '!'
  let tech_count :=
    (words.filter (fun w => TECHNICAL_KEYWORDS.contains (toLowerStr w))).length
  let lowerT := toLowerStr transcript
  let exp_count :=
    (EXPERIENCE_KEYWORDS.filter
      (fun kw => strContainsSub lowerT (toLowerStr kw))).length
  let struct_count :=
    (STRUCTURE_KEYWORDS.filter
      (fun kw => strContainsSub lowerT (toLowerStr kw))).length
  let length_score : Rat :=
    if word_count < 30 then 3
    else if word_count < 50 then 4
    else if word_count < 100 then 5
    else if word_count < 200 then (13 : Rat) / 2
    else if word_count < 300 then 7
    else if word_count < 500 then (13 : Rat) / 2
    else (11 : Rat) / 2
  let tech_ratio : Rat := (tech_count : Rat) / (max word_count 1 : Nat) * 100
  let tech_score : Rat :=
    if tech_ratio > 5 then min 9 (6 + tech_ratio / 2)
    else max 3 (5 + tech_ratio)
  let practical_score : Rat := min 8 (4 + (exp_count : Rat) * (8 / 10))
  let clarity_score : Rat :=
    min 8 (5 + (struct_count : Rat) * (5 / 10) + min ((sentence_count : Rat) / 3) 2)
  let hedge_count :=
    (HEDGING_WORDS.filter (fun hw => strContainsSub lowerT hw)).length
  let confidence_score : Rat := max 4 (7 - (hedge_count : Rat) * (5 / 10))
  let depth_score : Rat := (tech_score + length_score) / 2
  { word_count := word_count,
    sentence_count := sentence_count,
    technical_keywords := tech_count,
    experience_keywords := exp_count,
    structure_keywords := struct_count,
    technical_score := min 10 tech_score,
    depth_score := min 10 depth_score,
    practical_score := min 10 practical_score,
    clarity_score := min 10 clarity_score,
    confidence_score := min 10 confidence_score,
    estimated_duration := (word_count : Rat) / (5 / 2) }

/-- `EvaluationEngine._generate_heuristic_feedback`. -/
def generate_heuristic_feedback (analysis : ResponseAnalysis) :
    EvaluationFeedback :=
  let what_went_well :=
    (if analysis.technical_keywords > 5
     then ["Good use of technical terminology"] else []) ++
    (if analysis.experience_keywords > 2
     then ["Drew from practical experience"] else []) ++
    (if analysis.structure_keywords > 2
     then ["Well-structured response"] else []) ++
    (if 100 ≤ analysis.word_count ∧ analysis.word_count ≤ 300
     then ["Appropriate level of detail"] else [])
  let what_was_missing :=
    (if analysis.technical_keywords < 3
     then ["Could include more technical details"] else []) ++
    (if analysis.experience_keywords < 2
     then ["Limited evidence of hands-on experience"] else []) ++
    (if analysis.word_count < 50 then ["Response was too brief"] else []) ++
    (if analysis.word_count > 400 then ["Response was too verbose"] else []) ++
    (if analysis.structure_keywords < 2
     then ["Could be better structured"] else [])
  let improvement_suggestions :=
    (if analysis.technical_keywords < 3
     then ["Use specific technical terms and concepts"] else []) ++
    (if analysis.experience_keywords < 2
     then ["Include specific examples from your work"] else []) ++
    (if analysis.word_count < 50
     then ["Elaborate on your points with examples"] else []) ++
    (if analysis.word_count > 400 then ["Be more concise and focused"] else []) ++
    (if analysis.structure_keywords < 2
     then ["Organize your answer with clear sections"] else [])
  { what_went_well :=
      if what_went_well = [] then ["Response provided"] else what_went_well,
    what_was_missing := what_was_missing,
    red_flags := [],
    seniority_signals := [],
    improvement_suggestions := improvement_suggestions }

/-- `EvaluationEngine._calculate_difficulty_delta`. -/
def calculate_difficulty_delta (overall_score : Rat) : Int :=
  if overall_score ≥ 85 / 10 then 2
  else if overall_score ≥ 7 then 1
  else if overall_score ≥ 5 then 0
  else if overall_score ≥ 3 then -1
  else -2

/-- `EvaluationEngine._heuristic_evaluation`. -/
def heuristic_evaluation (question_id : String) (transcript : String)
    (context : InterviewContext) : ResponseEvaluation :=
  let analysis := analyze_response transcript
  let scores : ScoreBreakdown :=
    { technical_correctness := analysis.technical_score,
      depth_of_understanding := analysis.depth_score,
      practical_experience := analysis.practical_score,
      communication_clarity := analysis.clarity_score,
      confidence := analysis.confidence_score }
  let feedback := generate_heuristic_feedback analysis
  let needs_followup := decide (scores.overall_score < 6)
  { question_id := question_id,
    skill_id :=
      match context.skills_remaining with
      | [] => "general"
      | sk :: _ => sk,
    transcript := transcript,
    response_duration_seconds := analysis.estimated_duration,
    scores := scores,
    feedback := feedback,
    needs_followup := needs_followup,
    followup_reason :=
      if needs_followup then some "Response could use more depth" else none,
    difficulty_delta := calculate_difficulty_delta scores.overall_score }

/-- `EvaluationEngine` (`src/core/evaluation_engine.py`): its only state is
the optional AI reasoning collaborator, modelled as the evaluation function
the collaborator implements. -/
structure EvaluationEngine where
  ai_reasoning : Option (Question → String → InterviewContext → ResponseEvaluation)

/-- `EvaluationEngine.evaluate_response`: AI-backed only when both an AI
reasoning layer and a `Question` object are available, otherwise the
heuristic fallback. -/
def EvaluationEngine.evaluate_response (engine : EvaluationEngine)
    (question_id : String) (transcript : String) (context : InterviewContext)
    (question : Option Question) : ResponseEvaluation :=
  match engine.ai_reasoning, question with
  | some ai, some q => ai q transcript context
  | _, _ => heuristic_evaluation question_id transcript context

/-!  ## Audio processing (`src/core/audio_processor.py`)

The text-to-speech entry point dispatches on the configured model and each
backend catches its own failures: Kokoro and Piper fall back to Edge-TTS on
any exception, and Edge-TTS catches every exception and returns an
empty-audio result dict.  The raw synthesized payload (bytes / base64) is
modelled as an opaque string, and each backend's internal outcome (success
with a payload, or a raised exception with a message) is an explicit
`Except String String` parameter.  -/

/-- The result dict of the TTS functions. -/
structure AudioData where
  audio_data : String
  format : String
  sample_rate : Nat
  duration_seconds : Rat
  url : Option String := none
  error : Option String := none
deriving DecidableEq, Repr

/-- The settings fields `AudioProcessor.text_to_speech` reads. -/
structure TTSSettings where
  tts_model : String
  tts_voice : String
  tts_rate : Nat
deriving DecidableEq, Repr

/-- Duration estimate used by every backend: `word_count / 150 * 60`. -/
def estimateDuration (text : String) : Rat :=
  let word_count := (splitWs text).length
  (word_count : Rat) / 150 * 60

/-- `AudioProcessor._tts_edge`: success returns an mp3 result with no URL;
`ImportError` and every other exception are caught and degrade to an
empty-audio result (still no URL, never a raised exception). -/
def tts_edge (settings : TTSSettings) (text : String)
    (edge_outcome : Except String String) : AudioData :=
  match edge_outcome with
  | .ok payload =>
    { audio_data := payload,
      format := "mp3",
      sample_rate := 24000,
      duration_seconds := estimateDuration text,
      url := none,
      error := none }
  | .error e =>
    { audio_data := "",
      format := "wav",
      sample_rate := settings.tts_rate,
      duration_seconds := 0,
      url := none,
      error := some e }

/-- `AudioProcessor._tts_kokoro`: on success an in-memory wav result (no
URL); on `ImportError` or any other exception, fall back to `_tts_edge`. -/
def tts_kokoro (settings : TTSSettings) (text : String)
    (kokoro_outcome edge_outcome : Except String String) : AudioData :=
  match kokoro_outcome with
  | .ok payload =>
    { audio_data := payload,
      format := "wav",
      sample_rate := settings.tts_rate,
      duration_seconds := estimateDuration text,
      url := none,
      error := none }
  | .error _ => tts_edge settings text edge_outcome

/-- `AudioProcessor._tts_piper`: like Kokoro, any exception falls back to
`_tts_edge`. -/
def tts_piper (settings : TTSSettings) (text : String)
    (piper_outcome edge_outcome : Except String String) : AudioData :=
  match piper_outcome with
  | .ok payload =>
    { audio_data := payload,
      format := "wav",
      sample_rate := settings.tts_rate,
      duration_seconds := estimateDuration text,
      url := none,
      error := none }
  | .error _ => tts_edge settings text edge_outcome

/-- `AudioProcessor.text_to_speech`: dispatch on `settings.tts_model`
(lower-cased), defaulting to Edge-TTS.  Whatever the internal outcomes, this
returns a result dict — it never raises. -/
def text_to_speech (settings : TTSSettings) (text : String)
    (kokoro_outcome piper_outcome edge_outcome : Except String String) :
    AudioData :=
  let tts_model := toLowerStr settings.tts_model
  if tts_model = "kokoro" then tts_kokoro settings text kokoro_outcome edge_outcome
  else if tts_model = "piper" then tts_piper settings text piper_outcome edge_outcome
  else tts_edge settings text edge_outcome

/-!  ## Orchestrator (`src/core/interview_orchestrator.py`)  -/

/-- The exceptions the orchestrator flow can raise.  `valueError` models
Python `ValueError` (unknown session / no active question / interview not
complete), `stateTransition` models `StateTransitionError`, and
`collaborator` models an exception raised by an external collaborator call
that the orchestrator does not guard (it propagates out). -/
inductive OrchError where
  | valueError (msg : String)
  | stateTransition (msg : String)
  | collaborator (msg : String)
  | pythonError (msg : String)
deriving DecidableEq, Repr

/-- The audio-processing collaborator as the orchestrator sees it: a
speech-to-text and a text-to-speech callable, either of which may raise
(return `.error`) — the orchestrator calls both without a try/except. -/
structure AudioProcessorI where
  speech_to_text : String → Except String String
  text_to_speech : String → Except String AudioData

/-- The AI reasoning collaborator as the orchestrator sees it: question and
follow-up generation, plus the two Langfuse trace hooks the orchestrator
invokes with no surrounding try/except.  Each hook either returns or raises
(`.error`); it never touches the session.  The metadata dict built at each
call site is side-effect-free and elided.  The shipped collaborator
`AIReasoningLayer` (`src/core/ai_reasoning.py`) defines neither
`start_interview_trace` nor `end_interview_trace`, so on it both calls
raise `AttributeError` at the attribute lookup (`missingTraceMethod`). -/
structure AIReasoningI where
  generate_question : InterviewContext → Question
  generate_followup : InterviewContext → ResponseEvaluation → FollowUpDecision
  start_interview_trace : String → Except String Unit
  end_interview_trace : String → Except String Unit

/-- The behaviour of the orchestrator's trace-hook calls on the shipped
`AIReasoningLayer`: the class defines no such method, so the lookup raises
`AttributeError` before any argument is evaluated. -/
def missingTraceMethod (method : String) : String → Except String Unit :=
  fun _ => .error ("AttributeError: 'AIReasoningLayer' object has no attribute '"
    ++ method ++ "'")

/-- The mock report payload built by `_generate_mock_report` / returned by
the report collaborator (`src/models/report.py`, fields the mock sets). -/
structure InterviewReport where
  session_id : String
  target_role : Role
  years_of_experience : Nat
  interview_duration_minutes : Rat
  overall_score : Rat
  hiring_verdict : String
  role_readiness : String
deriving DecidableEq, Repr

/-- `InterviewOrchestrator`: collaborator dependencies plus the in-memory
session store (a dict from session id to session, modelled as an
insertion-ordered association list). -/
structure Orchestrator where
  ai_reasoning : Option AIReasoningI
  audio_processor : Option AudioProcessorI
  evaluation_engine : Option EvaluationEngine
  report_generator : Option (InterviewSession → InterviewReport)
  sessions : List (String × InterviewSession)

/-- Dict lookup in the session store. -/
def storeGet : List (String × InterviewSession) → String → Option InterviewSession
  | [], _ => none
  | (k, v) :: rest, sid => if k = sid then some v else storeGet rest sid

/-- Dict update (`self._sessions[session.session_id] = session`). -/
def storePut : List (String × InterviewSession) → String → InterviewSession →
    List (String × InterviewSession)
  | [], k, v => [(k, v)]
  | (k', v') :: rest, k, v =>
    if k' = k then (k, v) :: rest else (k', v') :: storePut rest k v

/-- `InterviewOrchestrator.get_session`. -/
def get_session (o : Orchestrator) (session_id : String) :
    Option InterviewSession :=
  storeGet o.sessions session_id

/-- `InterviewOrchestrator.update_session`. -/
def update_session (o : Orchestrator) (session : InterviewSession) :
    Orchestrator :=
  { o with sessions := storePut o.sessions session.session_id session }

/-- `InterviewOrchestrator.VALID_TRANSITIONS`. -/
def VALID_TRANSITIONS : InterviewState → List InterviewState
  | .SETUP => [.READY, .CANCELLED]
  | .READY => [.ASKING, .CANCELLED, .COMPLETE]
  | .ASKING => [.LISTENING, .PAUSED, .ERROR, .COMPLETE]
  | .LISTENING => [.PROCESSING, .PAUSED, .ERROR, .COMPLETE]
  | .PROCESSING => [.EVALUATING, .ERROR, .COMPLETE]
  | .EVALUATING => [.DECIDING, .ERROR, .COMPLETE]
  | .DECIDING => [.ASKING, .COMPLETE, .ERROR]
  | .COMPLETE => [.GENERATING_REPORT]
  | .GENERATING_REPORT => [.FINISHED, .ERROR]
  | .PAUSED => [.ASKING, .LISTENING, .CANCELLED, .COMPLETE]
  | .ERROR => [.CANCELLED]
  | .FINISHED => []
  | .CANCELLED => []

/-- Rendering of a list of states in the `StateTransitionError` message
(Python formats the list of enum members; we model the member rendering by
`stateName` and the list rendering by bracketed comma separation). -/
def renderStatesInner : List InterviewState → String
  | [] => ""
  | [st] => stateName st
  | st :: rest => stateName st ++ ", " ++ renderStatesInner rest

def renderStateList (l : List InterviewState) : String :=
  "[" ++ renderStatesInner l ++ "]"

/-- The `StateTransitionError` message built by `transition_state`. -/
def invalidTransitionMessage (old_state new_state : InterviewState)
    (valid_next_states : List InterviewState) : String :=
  "Invalid transition from " ++ stateName old_state ++ " to " ++
  stateName new_state ++ ". Valid transitions: " ++
  renderStateList valid_next_states

/-- The session-field effects of a validated transition: set the state, then
the special-state bookkeeping (`started_at` on READY, `completed_at` on
COMPLETE, `error_message` on ERROR; the Langfuse trace calls touch nothing
in the session). -/
def apply_transition_effects (session : InterviewSession)
    (new_state : InterviewState) (now : Nat)
    (error_message : Option String) : InterviewSession :=
  let session := { session with state := new_state }
  if new_state = InterviewState.READY then
    { session with started_at := some now }
  else if new_state = InterviewState.COMPLETE then
    { session with completed_at := some now }
  else if new_state = InterviewState.ERROR then
    { session with error_message := error_message }
  else
    session

/-- The Langfuse-trace step of `transition_state` (source lines 193–213): on
entering COMPLETE or ERROR, and only when an AI reasoning collaborator is
configured (`if self.ai_reasoning:`), the source calls its
`end_interview_trace` with no try/except; on every other target the block
performs no call. -/
def end_trace_result (o : Orchestrator) (session_id : String) :
    InterviewState → Except String Unit
  | .COMPLETE =>
    (match o.ai_reasoning with
     | some ai => ai.end_interview_trace session_id
     | none => .ok ())
  | .ERROR =>
    (match o.ai_reasoning with
     | some ai => ai.end_interview_trace session_id
     | none => .ok ())
  | _ => .ok ()

/-- `InterviewOrchestrator.transition_state`.  After validation the source
mutates the session fields (state at line 188, then the
READY/COMPLETE/ERROR bookkeeping) and, on entering COMPLETE or ERROR,
performs the unguarded `end_interview_trace` call; if that call raises —
as it does on the shipped `AIReasoningLayer`, which has no such method —
the exception propagates out of `transition_state`.  (In Python the field
mutations act on the very object held by the store and therefore survive
the raise; this embedding's error short-circuit returns no store, and no
property proved below reads the store after a propagated trace
exception.) -/
def transition_state (o : Orchestrator) (now : Nat) (session_id : String)
    (new_state : InterviewState) (error_message : Option String) :
    Except OrchError (Orchestrator × InterviewSession) :=
  match get_session o session_id with
  | none => .error (.valueError ("Session not found: " ++ session_id))
  | some session =>
    let old_state := session.state
    let valid_next_states := VALID_TRANSITIONS old_state
    if new_state ∈ valid_next_states then
      let session := apply_transition_effects session new_state now error_message
      match end_trace_result o session_id new_state with
      | .error e => .error (.pythonError e)
      | .ok _ => .ok (update_session o session, session)
    else
      .error (.stateTransition
        (invalidTransitionMessage old_state new_state valid_next_states))

/-- The dict results the flow methods return (`{"action": ...}`). -/
inductive ActionResult where
  | complete (message : String)
  | question (question_id : String) (question_text : String)
      (question_number : Nat) (total_questions : Nat) (difficulty : Int)
      (audio_data : Option AudioData)
  | followup (question_id : String) (question_text : String)
      (followup_reason : String) (audio_data : Option AudioData)
  | ended (reason : String) (questions_completed : Nat)
deriving DecidableEq, Repr

/-- Whether an action dict carries `"action": "followup"`. -/
def ActionResult.isFollowupAction : ActionResult → Bool
  | .followup _ _ _ _ => true
  | _ => false

/-- `InterviewOrchestrator.create_session` (session id and creation instant
are caller-supplied, standing for `uuid4()` / `utcnow()`).  Include acts as
an allow-list when non-empty, exclude always subtracts (Python truthiness:
an empty filter list disables that filter). -/
def create_session (o : Orchestrator) (setup : InterviewSetup)
    (sid : String) (now : Nat) : Orchestrator × InterviewSession :=
  let session : InterviewSession := { session_id := sid, setup := setup, created_at := now }
  let role_skills := get_skills_for_role setup.target_role
  let skill_ids := role_skills.map Skill.id
  let skill_ids :=
    if setup.include_skills ≠ [] then
      skill_ids.filter (fun s => setup.include_skills.contains s)
    else skill_ids
  let skill_ids :=
    if setup.exclude_skills ≠ [] then
      skill_ids.filter (fun s => !setup.exclude_skills.contains s)
    else skill_ids
  let session := { session with skill_scores := skill_ids.map (fun k => (k, [])) }
  -- difficulty_map: every Role value is a key, so the .get default 5 is
  -- unreachable; junior=3, mid=5, senior=7, staff=8, principal=9
  let session := { session with current_difficulty :=
    match setup.target_role with
    | .JUNIOR_DE => 3
    | .MID_DE => 5
    | .SENIOR_DE => 7
    | .STAFF_DE => 8
    | .PRINCIPAL_DE => 9 }
  ({ o with sessions := storePut o.sessions session.session_id session }, session)

/-- `InterviewOrchestrator._build_context`. -/
def build_context (session : InterviewSession) : InterviewContext :=
  -- skills covered: union of the asked-skill set and the skill ids whose
  -- score list is non-empty (a Python set; modelled as a deduplicated list,
  -- only membership is consumed downstream)
  let scored := ((session.skill_scores.filter (fun kv => kv.2 ≠ [])).map Prod.fst)
  let skills_covered :=
    session.asked_skills ++
      scored.filter (fun k => !session.asked_skills.contains k)
  let skills_remaining :=
    (session.skill_scores.map Prod.fst).filter
      (fun k => !skills_covered.contains k)
  let trend :=
    if session.difficulty_history.length ≥ 3 then
      let recent := session.difficulty_history.drop
        (session.difficulty_history.length - 3)
      if recent.getLastD 0 > recent.headD 0 then "improving"
      else if recent.getLastD 0 < recent.headD 0 then "declining"
      else "stable"
    else "stable"
  { session := session,
    recent_responses :=
      if session.questions ≠ [] then
        session.questions.drop (session.questions.length - 3)
      else [],
    skills_covered := skills_covered,
    skills_remaining := skills_remaining,
    performance_trend := trend }

/-- `InterviewOrchestrator._update_running_scores`. -/
def update_running_scores (session : InterviewSession)
    (evaluation : ResponseEvaluation) : InterviewSession :=
  let skill_scores :=
    if (session.skill_scores.map Prod.fst).contains evaluation.skill_id then
      session.skill_scores.map (fun kv =>
        if kv.1 = evaluation.skill_id then
          (kv.1, kv.2 ++ [evaluation.scores.overall_score])
        else kv)
    else session.skill_scores
  let all_scores := (skill_scores.map Prod.snd).flatten
  let running_score :=
    if all_scores ≠ [] then all_scores.sum / (all_scores.length : Rat)
    else session.running_score
  { session with skill_scores := skill_scores, running_score := running_score }

/-- The fixed pool of `_generate_mock_question`
(text, category, skill id). -/
def QUESTION_POOL : List (String × QuestionCategory × String) := [
  ("How would you optimize a complex SQL query that's running slowly on a large dataset?", .SQL, "sql_optimization_basics"),
  ("Explain window functions and provide an example of when you'd use them.", .SQL, "sql_window_functions"),
  ("How do you handle NULL values in SQL aggregations?", .SQL, "sql_aggregations"),
  ("Design an ETL pipeline for processing 10 million records daily.", .ETL, "etl_pipeline_design"),
  ("What's your approach to handling schema changes in a production pipeline?", .ETL, "schema_evolution"),
  ("How would you implement idempotent data loading?", .ETL, "incremental_loads"),
  ("How would you optimize a slow-running Spark job?", .SPARK, "spark_tuning"),
  ("Explain how Spark handles data partitioning and why it matters.", .SPARK, "spark_partitioning"),
  ("What strategies do you use for handling data skew in Spark?", .SPARK, "data_skew_handling"),
  ("Design a real-time analytics system for an e-commerce platform.", .SYSTEM_DESIGN, "data_platform_design"),
  ("How would you architect a data platform that scales from 100GB to 10TB daily?", .SYSTEM_DESIGN, "data_platform_design"),
  ("What are the key considerations when choosing between batch and streaming?", .SYSTEM_DESIGN, "stream_processing"),
  ("Explain the CAP theorem and how it applies to data systems.", .DISTRIBUTED, "cap_theorem"),
  ("How do you ensure data consistency in an event-driven architecture?", .DISTRIBUTED, "distributed_computing"),
  ("Describe strategies for handling failures in distributed pipelines.", .DISTRIBUTED, "distributed_computing"),
  ("Describe your approach to data quality validation in production.", .DATA_MODELING, "data_quality_concepts"),
  ("How would you implement data lineage tracking?", .OBSERVABILITY, "lineage_tracking"),
  ("What factors do you consider when optimizing cloud costs for data workloads?", .CLOUD, "cloud_cost_optimization"),
  ("Compare data lakes and data warehouses - when would you use each?", .CLOUD, "cloud_data_services"),
  ("How do you design reliable DAGs in Airflow?", .ORCHESTRATION, "dag_design"),
  ("What's your approach to monitoring and alerting for data pipelines?", .OBSERVABILITY, "pipeline_monitoring")]

open QuestionType in
/-- `InterviewOrchestrator._generate_mock_question` (`rand` stands for the
`random.choice` draw — an arbitrary index into the available pool — and
`uid` for the `uuid4().hex[:8]` fragment of the question id). -/
def generate_mock_question (session : InterviewSession) (rand : Nat)
    (uid : String) : Question :=
  let available := QUESTION_POOL.filter
    (fun p => !(session.is_question_asked p.1))
  let available := if available = [] then QUESTION_POOL else available
  let chosen := available.getD (rand % available.length) ("", .SQL, "")
  { id := "q_" ++ uid,
    text := chosen.1,
    category := chosen.2.1,
    skill_id := chosen.2.2,
    question_type := SCENARIO,
    difficulty := .MEDIUM,
    difficulty_score := session.current_difficulty,
    target_roles := [session.setup.target_role],
    expected_points :=
      ["Clear explanation", "Practical considerations", "Trade-offs"] }

/-- `InterviewOrchestrator._generate_mock_evaluation`. -/
def generate_mock_evaluation (question : QuestionResponse)
    (transcript : Option String) : ResponseEvaluation :=
  let len := (transcript.getD "").length
  let base_score : Rat := min 8 (max 3 ((len : Rat) / 100))
  { question_id := question.question_id,
    skill_id := "data_platform_design",
    transcript := transcript.getD "",
    response_duration_seconds := 30,
    scores :=
      { technical_correctness := base_score,
        depth_of_understanding := base_score - 5 / 10,
        practical_experience := base_score - 1,
        communication_clarity := base_score + 5 / 10,
        confidence := base_score },
    feedback :=
      { what_went_well := ["Clear communication"],
        what_was_missing := ["Could elaborate more on trade-offs"],
        red_flags := [],
        seniority_signals := ["Shows practical experience"] },
    needs_followup := decide (base_score < 6),
    followup_reason :=
      if base_score < 6 then some "Response could use more depth" else none,
    difficulty_delta :=
      if base_score > 7 then 1 else if base_score < 4 then -1 else 0 }

/-- `InterviewOrchestrator._generate_mock_followup`. -/
def generate_mock_followup (evaluation : ResponseEvaluation) :
    FollowUpDecision :=
  { should_followup := true,
    reason := evaluation.followup_reason.getD "Need more depth",
    followup_type := some "probe",
    followup_question :=
      some "Can you provide a specific example from your experience?",
    difficulty_adjustment := 0 }

/-- `InterviewOrchestrator._generate_mock_report`. -/
def generate_mock_report (session : InterviewSession) (now : Nat) :
    InterviewReport :=
  { session_id := session.session_id,
    target_role := session.setup.target_role,
    years_of_experience := session.setup.years_of_experience,
    interview_duration_minutes := session.get_duration_seconds now / 60,
    overall_score := session.running_score * 10,
    hiring_verdict := "hire",
    role_readiness := "almost_ready" }

/-- `InterviewOrchestrator.ask_next_question`.  `now`, `rand`, `uid` stand
for `utcnow()`, the `random.choice` draw and the `uuid4` fragment of the
mock path.  The unguarded audio call (`await
self.audio_processor.text_to_speech(...)`) propagates a collaborator
exception, aborting the question flow. -/
def ask_next_question (o : Orchestrator) (now rand : Nat) (uid : String)
    (session_id : String) : Except OrchError (Orchestrator × ActionResult) :=
  match get_session o session_id with
  | none => .error (.valueError ("Session not found: " ++ session_id))
  | some session =>
    if session.should_end_interview then
      match transition_state o now session_id InterviewState.COMPLETE none with
      | .error e => .error e
      | .ok (o1, _) => .ok (o1, .complete "Interview complete")
    else
      match transition_state o now session_id InterviewState.ASKING none with
      | .error e => .error e
      | .ok (o1, session) =>
        let context := build_context session
        let question :=
          match o1.ai_reasoning with
          | some ai => ai.generate_question context
          | none => generate_mock_question session rand uid
        let question_response : QuestionResponse :=
          { question_id := question.id,
            question_text := question.text,
            skill_id := some question.skill_id,
            asked_at := now }
        let audio_result : Except String (Option AudioData) :=
          match o1.audio_processor with
          | none => .ok none
          | some ap => (ap.text_to_speech question.text).map some
        match audio_result with
        | .error e => .error (.collaborator e)
        | .ok audio_data =>
          let question_response :=
            { question_response with
              question_audio_url := audio_data.bind AudioData.url }
          let session := session.add_question question_response
          let o2 := update_session o1 session
          match transition_state o2 now session_id InterviewState.LISTENING none with
          | .error e => .error e
          | .ok (o3, session) =>
            .ok (o3, .question question.id question.text
              session.total_core_questions_asked session.setup.max_questions
              session.current_difficulty audio_data)

/-- The follow-up question text selection and sanity guard of
`_ask_followup`: take the collaborator text (Python `or`-falsiness: `None`
and the empty string fall back to a generic probe), and replace it by the
fixed generic probe when, after trimming, it starts with a brace or a
bracket (malformed structured output). -/
def followup_question_text (followup : FollowUpDecision) : String :=
  let followup_text :=
    match followup.followup_question with
    | some t => if t = "" then "Can you elaborate on that?" else t
    | none => "Can you elaborate on that?"
  if startsWithStr (trimStr followup_text) "\x7b" ∨
     startsWithStr (trimStr followup_text) "["
  then "Can you provide a specific example from your experience?"
  else followup_text

/-- `InterviewOrchestrator._ask_followup`. -/
def ask_followup (o : Orchestrator) (now : Nat)
    (session : InterviewSession) (evaluation : ResponseEvaluation) :
    Except OrchError (Orchestrator × ActionResult) :=
  let followup :=
    match o.ai_reasoning with
    | some ai => ai.generate_followup (build_context session) evaluation
    | none => generate_mock_followup evaluation
  match session.get_current_question with
  | none =>
    -- `current_question.question_id` on None raises AttributeError in the
    -- source; modelled as a propagating exception
    .error (.pythonError "AttributeError: NoneType")
  | some current_question =>
    let followup_text := followup_question_text followup
    let followup_response : QuestionResponse :=
      { question_id := current_question.question_id ++ "_followup_" ++
          toString (session.total_followups_asked + 1),
        question_text := followup_text,
        skill_id := current_question.skill_id,
        asked_at := now,
        is_followup := true,
        parent_question_id := some current_question.question_id,
        followup_reason := some followup.reason }
    let audio_result : Except String (Option AudioData) :=
      match o.audio_processor with
      | none => .ok none
      | some ap => (ap.text_to_speech followup_response.question_text).map some
    match audio_result with
    | .error e => .error (.collaborator e)
    | .ok audio_data =>
      let followup_response :=
        { followup_response with
          question_audio_url := audio_data.bind AudioData.url }
      let session := session.add_question followup_response
      let o1 := update_session o session
      match transition_state o1 now session.session_id InterviewState.ASKING none with
      | .error e => .error e
      | .ok (o2, _) =>
        match transition_state o2 now session.session_id InterviewState.LISTENING none with
        | .error e => .error e
        | .ok (o3, _) =>
          .ok (o3, .followup followup_response.question_id
            followup_response.question_text followup.reason audio_data)

/-- The difficulty adaptation of `_decide_next_action`:
`max(1, min(10, difficulty + delta))`. -/
def adapt_difficulty (difficulty delta : Int) : Int :=
  max 1 (min 10 (difficulty + delta))

/-- The session mutation of the adaptation step: clamp the difficulty and
append the new value to the history. -/
def adapt_session (session : InterviewSession) (delta : Int) :
    InterviewSession :=
  let d := adapt_difficulty session.current_difficulty delta
  { session with current_difficulty := d,
                 difficulty_history := session.difficulty_history ++ [d] }

/-- `InterviewOrchestrator._decide_next_action`. -/
def decide_next_action (o : Orchestrator) (now rand : Nat) (uid : String)
    (session : InterviewSession) (evaluation : ResponseEvaluation) :
    Except OrchError (Orchestrator × ActionResult) :=
  if evaluation.needs_followup &&
     (session.setup.mode.value == "structured_followup") &&
     decide (session.total_followups_asked < session.setup.max_questions * 2)
  then
    ask_followup o now session evaluation
  else
    let session := adapt_session session evaluation.difficulty_delta
    let o1 := update_session o session
    if session.should_end_interview then
      match transition_state o1 now session.session_id InterviewState.COMPLETE none with
      | .error e => .error e
      | .ok (o2, _) => .ok (o2, .complete "Interview complete")
    else
      ask_next_question o1 now rand uid session.session_id

/-- The current-question mutations of `submit_response`
(`current_question.response_transcript = ...`,
`current_question.response_completed_at = ...`): the entry at
`current_question_index` is updated in place. -/
def set_current_response (session : InterviewSession)
    (transcript : Option String) (now : Nat) : InterviewSession :=
  match session.questions.get? session.current_question_index with
  | none => session
  | some cq =>
    { session with questions :=
        (session.questions.set session.current_question_index
          ({ cq with response_transcript := transcript,
                     response_completed_at := some now })) }

/-- The evaluation-storing mutation of `submit_response`
(`current_question.evaluation = evaluation.model_dump()`). -/
def set_current_evaluation (session : InterviewSession)
    (evaluation : ResponseEvaluation) : InterviewSession :=
  match session.questions.get? session.current_question_index with
  | none => session
  | some cq =>
    { session with questions :=
        (session.questions.set session.current_question_index
          ({ cq with evaluation := some evaluation.dump })) }

/-- `InterviewOrchestrator.submit_response`.  The caller supplies either raw
audio (an opaque payload string) or a transcript; `not transcript and
audio_data` in the source is Python falsiness on both operands: `None` and
the empty string are falsy transcripts, and `None` and the empty byte
payload are falsy audio. -/
def submit_response (o : Orchestrator) (now rand : Nat) (uid : String)
    (session_id : String) (audio_data : Option String)
    (transcript : Option String) :
    Except OrchError (Orchestrator × ActionResult) :=
  match get_session o session_id with
  | none => .error (.valueError ("Session not found: " ++ session_id))
  | some session =>
    match session.get_current_question with
    | none => .error (.valueError "No active question")
    | some _ =>
      match transition_state o now session_id InterviewState.PROCESSING none with
      | .error e => .error e
      | .ok (o1, session) =>
        let transcribe_result : Except String (Option String) :=
          if (transcript = none ∨ transcript = some "") ∧
             (audio_data ≠ none ∧ audio_data ≠ some "") then
            match o1.audio_processor with
            | some ap =>
              match ap.speech_to_text (audio_data.getD "") with
              | .ok t => .ok (some t)
              | .error e => .error e
            | none => .ok (some "[Transcription unavailable]")
          else .ok transcript
        match transcribe_result with
        | .error e => .error (.collaborator e)
        | .ok transcript =>
          let session := set_current_response session transcript now
          let session := session.add_response_to_context (transcript.getD "")
          let o1 := update_session o1 session
          match transition_state o1 now session_id InterviewState.EVALUATING none with
          | .error e => .error e
          | .ok (o2, session) =>
            match session.get_current_question with
            | none => .error (.pythonError "AttributeError: NoneType")
            | some current_question =>
              let evaluation :=
                match o2.evaluation_engine with
                | some engine =>
                  engine.evaluate_response current_question.question_id
                    (transcript.getD "") (build_context session) none
                | none => generate_mock_evaluation current_question transcript
              let session := set_current_evaluation session evaluation
              let session := update_running_scores session evaluation
              let o3 := update_session o2 session
              match transition_state o3 now session_id InterviewState.DECIDING none with
              | .error e => .error e
              | .ok (o4, session) =>
                decide_next_action o4 now rand uid session evaluation

/-- `InterviewOrchestrator.end_interview`. -/
def end_interview (o : Orchestrator) (now : Nat) (session_id : String)
    (reason : String) : Except OrchError (Orchestrator × ActionResult) :=
  match get_session o session_id with
  | none => .error (.valueError ("Session not found: " ++ session_id))
  | some session =>
    let session := { session with completed_at := some now }
    let o1 := update_session o session
    match transition_state o1 now session_id InterviewState.COMPLETE none with
    | .error e => .error e
    | .ok (o2, session) =>
      .ok (o2, .ended reason session.questions.length)

/-- `InterviewOrchestrator.generate_report`. -/
def generate_report (o : Orchestrator) (now : Nat) (session_id : String) :
    Except OrchError (Orchestrator × InterviewReport) :=
  match get_session o session_id with
  | none => .error (.valueError ("Session not found: " ++ session_id))
  | some session =>
    if session.state ∉ [InterviewState.COMPLETE, InterviewState.GENERATING_REPORT] then
      .error (.valueError "Interview must be complete to generate report")
    else
      match transition_state o now session_id InterviewState.GENERATING_REPORT none with
      | .error e => .error e
      | .ok (o1, session) =>
        let report :=
          match o1.report_generator with
          | some rg => rg session
          | none => generate_mock_report session now
        match transition_state o1 now session_id InterviewState.FINISHED none with
        | .error e => .error e
        | .ok (o2, _) => .ok (o2, report)

/-- `InterviewOrchestrator.start_interview`: fetch the session, then (when
an AI reasoning collaborator is configured) perform the unguarded
`start_interview_trace` call — on the shipped `AIReasoningLayer`, which
defines no such method, this raises `AttributeError`, so the exception
propagates before the READY transition — then transition to READY and ask
the first question. -/
def start_interview (o : Orchestrator) (now rand : Nat) (uid : String)
    (session_id : String) : Except OrchError (Orchestrator × ActionResult) :=
  match get_session o session_id with
  | none => .error (.valueError ("Session not found: " ++ session_id))
  | some _ =>
    let trace_result : Except String Unit :=
      match o.ai_reasoning with
      | some ai => ai.start_interview_trace session_id
      | none => .ok ()
    match trace_result with
    | .error e => .error (.pythonError e)
    | .ok _ =>
      match transition_state o now session_id InterviewState.READY none with
      | .error e => .error e
      | .ok (o1, _) => ask_next_question o1 now rand uid session_id

/-!  ## Shared fixtures for concrete witnesses  -/

/-- A concrete setup used by witness instantiations. -/
def setupW : InterviewSetup :=
  { years_of_experience := 5, target_role := .SENIOR_DE, max_questions := 5 }

/-- A concrete session used by witness instantiations. -/
def sessW : InterviewSession :=
  { session_id := "s1", setup := setupW, created_at := 0 }

/-- A concrete core question used by witness instantiations. -/
def qW : QuestionResponse :=
  { question_id := "q1", question_text := "Design an ETL pipeline.",
    skill_id := some "etl_pipeline_design", asked_at := 1 }

/-!  ## C8 — end-of-interview condition  -/

/-- C8: for every session, `should_end_interview()` returns true iff
`total_core_questions_asked >= setup.max_questions` or the state is one of
COMPLETE, CANCELLED, ERROR; in all other cases it returns false. -/
theorem C8_should_end_interview_iff (s : InterviewSession) :
    s.should_end_interview = true ↔
      (s.setup.max_questions ≤ s.total_core_questions_asked ∨
       s.state = InterviewState.COMPLETE ∨
       s.state = InterviewState.CANCELLED ∨
       s.state = InterviewState.ERROR) := by
  simp [InterviewSession.should_end_interview, List.elem_iff,
    ge_iff_le, or_assoc]

/-!  ## C9 — context reset on new core question  -/

/-- C9: immediately after `add_question` with a non-follow-up question the
conversation buffer holds exactly the one interviewer entry for that
question and the per-question follow-up counter is 0; after `add_question`
with a follow-up, and after `add_response_to_context`, no such reset happens
(the buffer grows by one entry and the counter is respectively incremented
and unchanged). -/
theorem C9_context_reset (s : InterviewSession) (q : QuestionResponse) :
    (q.is_followup = false →
       (s.add_question q).current_question_context =
         [⟨"interviewer", q.question_text⟩] ∧
       (s.add_question q).current_question_followups = 0)
  ∧ (q.is_followup = true →
       (s.add_question q).current_question_context =
         s.current_question_context ++ [⟨"interviewer", q.question_text⟩] ∧
       (s.add_question q).current_question_followups =
         s.current_question_followups + 1)
  ∧ (∀ t, (s.add_response_to_context t).current_question_context =
         s.current_question_context ++ [⟨"candidate", t⟩] ∧
       (s.add_response_to_context t).current_question_followups =
         s.current_question_followups) := by
  refine ⟨fun h => ?_, fun h => ?_, fun t => ?_⟩
  · simp [InterviewSession.add_question, h]
  · simp [InterviewSession.add_question, h]
  · simp [InterviewSession.add_response_to_context]

/-- C9 witness: the reset at a concrete core question. -/
theorem C9_context_reset_witness :
    (sessW.add_question qW).current_question_context =
      [⟨"interviewer", "Design an ETL pipeline."⟩] ∧
    (sessW.add_question qW).current_question_followups = 0 :=
  (C9_context_reset sessW qW).1 rfl

/-!  ## Session evolution machinery

Every mutation an orchestrator operation performs on a stored session is one
of a small set of primitive session transforms.  `SessionStep` names them;
`Reaches` is its reflexive-transitive closure.  `StoreEvolves o o'` says
every session stored in `o'` descends, under the same key, from a session
stored in `o`; `wf_store` says the store keys each session by its own id
(which `create_session` establishes and every operation preserves). -/

inductive SessionStep : InterviewSession → InterviewSession → Prop where
  | transition (s : InterviewSession) (ns : InterviewState) (now : Nat)
      (em : Option String) :
      SessionStep s (apply_transition_effects s ns now em)
  | ask (s : InterviewSession) (q : QuestionResponse) :
      SessionStep s (s.add_question q)
  | respondCtx (s : InterviewSession) (t : String) :
      SessionStep s (s.add_response_to_context t)
  | setResponse (s : InterviewSession) (t : Option String) (now : Nat) :
      SessionStep s (set_current_response s t now)
  | setEval (s : InterviewSession) (ev : ResponseEvaluation) :
      SessionStep s (set_current_evaluation s ev)
  | foldScores (s : InterviewSession) (ev : ResponseEvaluation) :
      SessionStep s (update_running_scores s ev)
  | adapt (s : InterviewSession) (d : Int) :
      SessionStep s (adapt_session s d)
  | stamp (s : InterviewSession) (now : Nat) :
      SessionStep s { s with completed_at := some now }

def Reaches : InterviewSession → InterviewSession → Prop :=
  Relation.ReflTransGen SessionStep

def wf_store (o : Orchestrator) : Prop :=
  ∀ sid s, get_session o sid = some s → s.session_id = sid

def StoreEvolves (o o' : Orchestrator) : Prop :=
  ∀ sid s', get_session o' sid = some s' →
    ∃ s, get_session o sid = some s ∧ Reaches s s'

theorem add_question_session_id (s : InterviewSession) (q : QuestionResponse) :
    (s.add_question q).session_id = s.session_id := by
  unfold InterviewSession.add_question
  split <;> split <;> rfl

theorem apply_transition_effects_session_id (s : InterviewSession)
    (ns : InterviewState) (now : Nat) (em : Option String) :
    (apply_transition_effects s ns now em).session_id = s.session_id := by
  unfold apply_transition_effects
  split
  · rfl
  · split
    · rfl
    · split <;> rfl

theorem set_current_response_session_id (s : InterviewSession)
    (t : Option String) (now : Nat) :
    (set_current_response s t now).session_id = s.session_id := by
  unfold set_current_response
  split <;> rfl

theorem set_current_evaluation_session_id (s : InterviewSession)
    (ev : ResponseEvaluation) :
    (set_current_evaluation s ev).session_id = s.session_id := by
  unfold set_current_evaluation
  split <;> rfl

theorem sessionStep_session_id {s s' : InterviewSession}
    (h : SessionStep s s') : s'.session_id = s.session_id := by
  cases h with
  | transition ns now em => exact apply_transition_effects_session_id s ns now em
  | ask q => exact add_question_session_id s q
  | respondCtx t => rfl
  | setResponse t now => exact set_current_response_session_id s t now
  | setEval ev => exact set_current_evaluation_session_id s ev
  | foldScores ev => rfl
  | adapt d => rfl
  | stamp now => rfl

theorem reaches_session_id {s s' : InterviewSession}
    (h : Reaches s s') : s'.session_id = s.session_id := by
  induction h with
  | refl => rfl
  | tail _ hstep ih => rw [sessionStep_session_id hstep, ih]

theorem reaches_refl (s : InterviewSession) : Reaches s s :=
  Relation.ReflTransGen.refl

theorem reaches_single {s s' : InterviewSession} (h : SessionStep s s') :
    Reaches s s' :=
  Relation.ReflTransGen.single h

theorem reaches_trans {a b c : InterviewSession}
    (h1 : Reaches a b) (h2 : Reaches b c) : Reaches a c :=
  Relation.ReflTransGen.trans h1 h2

theorem storeGet_storePut (l : List (String × InterviewSession)) (k : String)
    (v : InterviewSession) (sid : String) :
    storeGet (storePut l k v) sid =
      if sid = k then some v else storeGet l sid := by
  induction l with
  | nil =>
    by_cases h : sid = k
    · subst h
      simp [storePut, storeGet]
    · simp [storePut, storeGet, if_neg h, if_neg (Ne.symm h)]
  | cons kv rest ih =>
    obtain ⟨k', v'⟩ := kv
    by_cases hk : k' = k
    · subst hk
      by_cases h : sid = k'
      · subst h
        simp [storePut, storeGet]
      · simp [storePut, storeGet, if_neg h, if_neg (Ne.symm h)]
    · by_cases h : sid = k'
      · subst h
        simp [storePut, storeGet, if_neg hk, if_neg (fun hh : sid = k => hk hh)]
      · simp [storePut, storeGet, if_neg hk, if_neg (Ne.symm h), if_neg h, ih]

theorem get_update_session (o : Orchestrator) (s : InterviewSession)
    (sid : String) :
    get_session (update_session o s) sid =
      if sid = s.session_id then some s else get_session o sid := by
  unfold get_session update_session
  exact storeGet_storePut o.sessions s.session_id s sid

theorem wf_update_session {o : Orchestrator} (hwf : wf_store o)
    (s : InterviewSession) : wf_store (update_session o s) := by
  intro sid s' h
  rw [get_update_session] at h
  by_cases hsid : sid = s.session_id
  · simp [hsid] at h
    rw [← h, hsid]
  · simp [hsid] at h
    exact hwf sid s' h

theorem storeEvolves_refl (o : Orchestrator) : StoreEvolves o o :=
  fun _ s' h => ⟨s', h, reaches_refl s'⟩

theorem storeEvolves_trans {o o' o'' : Orchestrator}
    (h1 : StoreEvolves o o') (h2 : StoreEvolves o' o'') :
    StoreEvolves o o'' := by
  intro sid s'' hget
  obtain ⟨s', hget', hr'⟩ := h2 sid s'' hget
  obtain ⟨s, hget0, hr⟩ := h1 sid s' hget'
  exact ⟨s, hget0, reaches_trans hr hr'⟩

/-- Updating the store at a session that descends from the session stored
under the same key is a store evolution. -/
theorem storeEvolves_update {o : Orchestrator} {s0 s1 : InterviewSession}
    (hget : get_session o s1.session_id = some s0) (hr : Reaches s0 s1) :
    StoreEvolves o (update_session o s1) := by
  intro sid s' h
  rw [get_update_session] at h
  by_cases hsid : sid = s1.session_id
  · simp [hsid] at h
    subst h
    exact ⟨s0, hsid ▸ hget, hr⟩
  · simp [hsid] at h
    exact ⟨s', h, reaches_refl s'⟩

/-- Characterization of a successful `transition_state`. -/
theorem transition_state_ok {o : Orchestrator} {now : Nat} {sid : String}
    {ns : InterviewState} {em : Option String} {o' : Orchestrator}
    {s' : InterviewSession}
    (h : transition_state o now sid ns em = .ok (o', s')) :
    ∃ s, get_session o sid = some s ∧ ns ∈ VALID_TRANSITIONS s.state ∧
      s' = apply_transition_effects s ns now em ∧
      o' = update_session o s' := by
  unfold transition_state at h
  cases hg : get_session o sid with
  | none => rw [hg] at h; simp at h
  | some s =>
    rw [hg] at h
    dsimp only at h
    by_cases hv : ns ∈ VALID_TRANSITIONS s.state
    · rw [if_pos hv] at h
      split at h
      · simp at h
      · simp only [Except.ok.injEq, Prod.mk.injEq] at h
        exact ⟨s, rfl, hv, h.2.symm, by rw [← h.1, h.2]⟩
    · rw [if_neg hv] at h
      simp at h

/-- A successful transition is a store evolution, keeps the store
well-formed, and stores the returned session under the transitioned id. -/
theorem transition_state_evolves {o : Orchestrator} {now : Nat}
    {sid : String} {ns : InterviewState} {em : Option String}
    {o' : Orchestrator} {s' : InterviewSession} (hwf : wf_store o)
    (h : transition_state o now sid ns em = .ok (o', s')) :
    StoreEvolves o o' ∧ wf_store o' ∧ get_session o' sid = some s' ∧
      s'.session_id = sid := by
  obtain ⟨s, hg, _, hs', ho'⟩ := transition_state_ok h
  have hid : s'.session_id = sid := by
    rw [hs', apply_transition_effects_session_id]
    exact hwf sid s hg
  subst ho'
  refine ⟨?_, wf_update_session hwf s', ?_, hid⟩
  · exact storeEvolves_update (by rw [hid]; exact hg)
      (hs' ▸ reaches_single (SessionStep.transition s ns now em))
  · rw [get_update_session, if_pos hid.symm]

/-- `create_session` stores the new session under its own id and leaves
other sessions untouched. -/
theorem create_session_get (o : Orchestrator) (setup : InterviewSetup)
    (sid : String) (now : Nat) (sid' : String) :
    get_session (create_session o setup sid now).1 sid' =
      if sid' = sid then some (create_session o setup sid now).2
      else get_session o sid' := by
  unfold create_session get_session
  exact storeGet_storePut o.sessions sid _ sid'

theorem create_session_session_id (o : Orchestrator)
    (setup : InterviewSetup) (sid : String) (now : Nat) :
    (create_session o setup sid now).2.session_id = sid := rfl

theorem create_session_wf {o : Orchestrator} (hwf : wf_store o)
    (setup : InterviewSetup) (sid : String) (now : Nat) :
    wf_store (create_session o setup sid now).1 := by
  intro sid' s' h
  rw [create_session_get] at h
  by_cases hs : sid' = sid
  · rw [if_pos hs] at h
    cases h
    rw [create_session_session_id, hs]
  · rw [if_neg hs] at h
    exact hwf sid' s' h

/-- Appending a question to a stored session and transitioning it to
LISTENING (the delivery tail shared by `ask_next_question` and
`_ask_followup`) is a store evolution. -/
theorem ask_listen_tail_evolves {o1 o3 : Orchestrator}
    {s1 s3 : InterviewSession} {sid : String} {now : Nat}
    {ns : InterviewState} {q : QuestionResponse}
    (hwf1 : wf_store o1) (hget1 : get_session o1 sid = some s1)
    (hid1 : s1.session_id = sid)
    (ht2 : transition_state (update_session o1 (s1.add_question q)) now sid
      ns none = .ok (o3, s3)) :
    StoreEvolves o1 o3 ∧ wf_store o3 := by
  have hstep : StoreEvolves o1 (update_session o1 (s1.add_question q)) :=
    storeEvolves_update (by rw [add_question_session_id, hid1]; exact hget1)
      (reaches_single (SessionStep.ask s1 q))
  have he3 := transition_state_evolves (wf_update_session hwf1 _) ht2
  exact ⟨storeEvolves_trans hstep he3.1, he3.2.1⟩

/-- A successful `ask_next_question` is a store evolution and keeps the
store well-formed. -/
theorem ask_next_question_evolves {o : Orchestrator} {now rand : Nat}
    {uid sid : String} {o' : Orchestrator} {a : ActionResult}
    (hwf : wf_store o)
    (h : ask_next_question o now rand uid sid = .ok (o', a)) :
    StoreEvolves o o' ∧ wf_store o' := by
  unfold ask_next_question at h
  split at h
  · simp at h
  next session hg =>
    split at h
    · -- should_end branch: single COMPLETE transition
      split at h
      · simp at h
      next pr ht =>
        simp only [Except.ok.injEq, Prod.mk.injEq] at h
        obtain ⟨ho, _⟩ := h
        subst ho
        have he := transition_state_evolves hwf ht
        exact ⟨he.1, he.2.1⟩
    · -- ask branch
      split at h
      · simp at h
      next o1 s1 ht =>
        obtain ⟨hev1, hwf1, hget1, hid1⟩ := transition_state_evolves hwf ht
        split at h
        · -- AI question generator configured
          split at h
          · -- audio processor absent
            dsimp only at h
            split at h
            · simp at h
            next o3 s3 ht2 =>
              simp only [Except.ok.injEq, Prod.mk.injEq] at h
              obtain ⟨ho, _⟩ := h
              subst ho
              have htail := ask_listen_tail_evolves hwf1 hget1 hid1 ht2
              exact ⟨storeEvolves_trans hev1 htail.1, htail.2⟩
          · -- audio processor present: split on the synthesized result
            dsimp only at h
            split at h
            · simp at h
            · split at h
              · simp at h
              next o3 s3 ht2 =>
                simp only [Except.ok.injEq, Prod.mk.injEq] at h
                obtain ⟨ho, _⟩ := h
                subst ho
                have htail := ask_listen_tail_evolves hwf1 hget1 hid1 ht2
                exact ⟨storeEvolves_trans hev1 htail.1, htail.2⟩
        · -- mock question path
          split at h
          · dsimp only at h
            split at h
            · simp at h
            next o3 s3 ht2 =>
              simp only [Except.ok.injEq, Prod.mk.injEq] at h
              obtain ⟨ho, _⟩ := h
              subst ho
              have htail := ask_listen_tail_evolves hwf1 hget1 hid1 ht2
              exact ⟨storeEvolves_trans hev1 htail.1, htail.2⟩
          · dsimp only at h
            split at h
            · simp at h
            · split at h
              · simp at h
              next o3 s3 ht2 =>
                simp only [Except.ok.injEq, Prod.mk.injEq] at h
                obtain ⟨ho, _⟩ := h
                subst ho
                have htail := ask_listen_tail_evolves hwf1 hget1 hid1 ht2
                exact ⟨storeEvolves_trans hev1 htail.1, htail.2⟩

/-- Appending a question to a stored session, then transitioning the store
ASKING → LISTENING (the `_ask_followup` tail), is a store evolution. -/
theorem followup_tail_evolves {o : Orchestrator} {session : InterviewSession}
    {q : QuestionResponse} {now : Nat} {o2 o3 : Orchestrator}
    {s2 s3 : InterviewSession}
    (hwf : wf_store o)
    (hsess : get_session o session.session_id = some session)
    (htA : transition_state (update_session o (session.add_question q)) now
      (session.add_question q).session_id InterviewState.ASKING none =
        .ok (o2, s2))
    (htL : transition_state o2 now (session.add_question q).session_id
      InterviewState.LISTENING none = .ok (o3, s3)) :
    StoreEvolves o o3 ∧ wf_store o3 := by
  have hstep : StoreEvolves o (update_session o (session.add_question q)) :=
    storeEvolves_update (by rw [add_question_session_id]; exact hsess)
      (reaches_single (SessionStep.ask session q))
  have hA := transition_state_evolves (wf_update_session hwf _) htA
  have hL := transition_state_evolves hA.2.1 htL
  exact ⟨storeEvolves_trans (storeEvolves_trans hstep hA.1) hL.1, hL.2.1⟩

/-- A successful `_ask_followup` on a stored session is a store evolution
and keeps the store well-formed. -/
theorem ask_followup_evolves {o : Orchestrator} {now : Nat}
    {session : InterviewSession} {evaluation : ResponseEvaluation}
    {o' : Orchestrator} {a : ActionResult} (hwf : wf_store o)
    (hsess : get_session o session.session_id = some session)
    (h : ask_followup o now session evaluation = .ok (o', a)) :
    StoreEvolves o o' ∧ wf_store o' := by
  unfold ask_followup at h
  split at h
  · -- AI follow-up generator configured
    split at h
    · simp at h
    next cq hcq =>
      try dsimp only at h
      split at h
      · simp at h
      next audio_data haud =>
        split at h
        · simp at h
        next oA sA htA =>
          split at h
          · simp at h
          next o3 s3 htL =>
            simp only [Except.ok.injEq, Prod.mk.injEq] at h
            obtain ⟨ho, _⟩ := h
            subst ho
            exact followup_tail_evolves hwf hsess htA htL
  · -- mock follow-up path
    split at h
    · simp at h
    next cq hcq =>
      try dsimp only at h
      split at h
      · simp at h
      next audio_data haud =>
        split at h
        · simp at h
        next oA sA htA =>
          split at h
          · simp at h
          next o3 s3 htL =>
            simp only [Except.ok.injEq, Prod.mk.injEq] at h
            obtain ⟨ho, _⟩ := h
            subst ho
            exact followup_tail_evolves hwf hsess htA htL

theorem adapt_session_session_id (s : InterviewSession) (d : Int) :
    (adapt_session s d).session_id = s.session_id := rfl

theorem add_response_to_context_session_id (s : InterviewSession)
    (t : String) : (s.add_response_to_context t).session_id = s.session_id :=
  rfl

theorem update_running_scores_session_id (s : InterviewSession)
    (ev : ResponseEvaluation) :
    (update_running_scores s ev).session_id = s.session_id := rfl

/-- A successful `_decide_next_action` on a stored session is a store
evolution and keeps the store well-formed. -/
theorem decide_next_action_evolves {o : Orchestrator} {now rand : Nat}
    {uid : String} {session : InterviewSession}
    {evaluation : ResponseEvaluation} {o' : Orchestrator} {a : ActionResult}
    (hwf : wf_store o)
    (hsess : get_session o session.session_id = some session)
    (h : decide_next_action o now rand uid session evaluation = .ok (o', a)) :
    StoreEvolves o o' ∧ wf_store o' := by
  unfold decide_next_action at h
  split at h
  · exact ask_followup_evolves hwf hsess h
  · try dsimp only at h
    have hstep : StoreEvolves o
        (update_session o (adapt_session session evaluation.difficulty_delta)) :=
      storeEvolves_update
        (by rw [adapt_session_session_id]; exact hsess)
        (reaches_single (SessionStep.adapt session evaluation.difficulty_delta))
    have hwf1 := wf_update_session hwf
      (adapt_session session evaluation.difficulty_delta)
    split at h
    · split at h
      · simp at h
      next o2 s2 ht =>
        simp only [Except.ok.injEq, Prod.mk.injEq] at h
        obtain ⟨ho, _⟩ := h
        subst ho
        have hT := transition_state_evolves hwf1 ht
        exact ⟨storeEvolves_trans hstep hT.1, hT.2.1⟩
    · have hA := ask_next_question_evolves hwf1 h
      exact ⟨storeEvolves_trans hstep hA.1, hA.2⟩

/-- A successful `submit_response` is a store evolution and keeps the store
well-formed. -/
theorem submit_response_evolves {o : Orchestrator} {now rand : Nat}
    {uid sid : String} {audio_data : Option String}
    {transcript : Option String} {o' : Orchestrator} {a : ActionResult}
    (hwf : wf_store o)
    (h : submit_response o now rand uid sid audio_data transcript =
      .ok (o', a)) :
    StoreEvolves o o' ∧ wf_store o' := by
  unfold submit_response at h
  split at h
  · simp at h
  next session hg =>
    split at h
    · simp at h
    next cq0 hcq0 =>
      split at h
      · simp at h
      next o1 s1 htP =>
        obtain ⟨hev1, hwf1, hget1, hid1⟩ := transition_state_evolves hwf htP
        try dsimp only at h
        split at h
        · simp at h
        next t ht0 =>
          try dsimp only at h
          split at h
          · simp at h
          next o2 s2 htE =>
            have hstep1 : StoreEvolves o1 (update_session o1
                ((set_current_response s1 t now).add_response_to_context
                  (t.getD ""))) :=
              storeEvolves_update
                (by rw [add_response_to_context_session_id,
                      set_current_response_session_id, hid1]
                    exact hget1)
                (reaches_trans
                  (reaches_single (SessionStep.setResponse s1 t now))
                  (reaches_single (SessionStep.respondCtx _ (t.getD ""))))
            have hwf2 := wf_update_session hwf1
              ((set_current_response s1 t now).add_response_to_context
                (t.getD ""))
            obtain ⟨hev3, hwf3, hget3, hid3⟩ :=
              transition_state_evolves hwf2 htE
            try dsimp only at h
            split at h
            · simp at h
            next cq hcq =>
              try dsimp only at h
              split at h
              · simp at h
              next o4 s4 htD =>
                obtain ⟨hev5, hwf5, hget5, hid5⟩ :=
                  transition_state_evolves (wf_update_session hwf3 _) htD
                have hdec := decide_next_action_evolves hwf5
                  (by rw [hid5]; exact hget5) h
                refine ⟨?_, hdec.2⟩
                exact storeEvolves_trans (storeEvolves_trans
                  (storeEvolves_trans (storeEvolves_trans
                    (storeEvolves_trans hev1 hstep1) hev3)
                    (storeEvolves_update
                      (by rw [update_running_scores_session_id,
                            set_current_evaluation_session_id, hid3]
                          exact hget3)
                      (reaches_trans
                        (reaches_single (SessionStep.setEval s2 _))
                        (reaches_single (SessionStep.foldScores _ _)))))
                    hev5) hdec.1

/-- A successful `end_interview` is a store evolution and keeps the store
well-formed. -/
theorem end_interview_evolves {o : Orchestrator} {now : Nat} {sid : String}
    {reason : String} {o' : Orchestrator} {a : ActionResult}
    (hwf : wf_store o)
    (h : end_interview o now sid reason = .ok (o', a)) :
    StoreEvolves o o' ∧ wf_store o' := by
  unfold end_interview at h
  split at h
  · simp at h
  next session hg =>
    try dsimp only at h
    split at h
    · simp at h
    next o2 s2 ht =>
      simp only [Except.ok.injEq, Prod.mk.injEq] at h
      obtain ⟨ho, _⟩ := h
      subst ho
      have hstep : StoreEvolves o
          (update_session o { session with completed_at := some now }) :=
        storeEvolves_update (hwf sid session hg ▸ hg)
          (reaches_single (SessionStep.stamp session now))
      have hT := transition_state_evolves (wf_update_session hwf _) ht
      exact ⟨storeEvolves_trans hstep hT.1, hT.2.1⟩

/-- A successful `generate_report` is a store evolution and keeps the store
well-formed. -/
theorem generate_report_evolves {o : Orchestrator} {now : Nat}
    {sid : String} {o' : Orchestrator} {r : InterviewReport}
    (hwf : wf_store o)
    (h : generate_report o now sid = .ok (o', r)) :
    StoreEvolves o o' ∧ wf_store o' := by
  unfold generate_report at h
  split at h
  · simp at h
  next session hg =>
    split at h
    · simp at h
    · split at h
      · simp at h
      next o1 s1 ht1 =>
        try dsimp only at h
        split at h
        · simp at h
        next o2 s2 ht2 =>
          simp only [Except.ok.injEq, Prod.mk.injEq] at h
          obtain ⟨ho, _⟩ := h
          subst ho
          have h1 := transition_state_evolves hwf ht1
          have h2 := transition_state_evolves h1.2.1 ht2
          exact ⟨storeEvolves_trans h1.1 h2.1, h2.2.1⟩

/-- A successful `start_interview` is a store evolution and keeps the store
well-formed. -/
theorem start_interview_evolves {o : Orchestrator} {now rand : Nat}
    {uid sid : String} {o' : Orchestrator} {a : ActionResult}
    (hwf : wf_store o)
    (h : start_interview o now rand uid sid = .ok (o', a)) :
    StoreEvolves o o' ∧ wf_store o' := by
  unfold start_interview at h
  split at h
  · simp at h
  next session hg =>
    dsimp only at h
    split at h
    · simp at h
    · split at h
      · simp at h
      next o1 s1 ht =>
        have h1 := transition_state_evolves hwf ht
        have h2 := ask_next_question_evolves h1.2.1 h
        exact ⟨storeEvolves_trans h1.1 h2.1, h2.2⟩

/-!  ## Invariant preservation along evolutions  -/

/-- `P` is closed under the primitive session steps. -/
def StepClosed (P : InterviewSession → Prop) : Prop :=
  ∀ s s', SessionStep s s' → P s → P s'

/-- Every stored session satisfies `P`. -/
def store_inv (P : InterviewSession → Prop) (o : Orchestrator) : Prop :=
  ∀ sid s, get_session o sid = some s → P s

theorem reaches_preserves {P : InterviewSession → Prop} (hP : StepClosed P)
    {s s' : InterviewSession} (h : Reaches s s') : P s → P s' := by
  induction h with
  | refl => exact id
  | tail _ hstep ih => exact fun hp => hP _ _ hstep (ih hp)

theorem storeEvolves_preserves_inv {P : InterviewSession → Prop}
    (hP : StepClosed P) {o o' : Orchestrator} (he : StoreEvolves o o')
    (hi : store_inv P o) : store_inv P o' := by
  intro sid s' hget
  obtain ⟨s, hget0, hr⟩ := he sid s' hget
  exact reaches_preserves hP hr (hi sid s hget0)

/-- The transition side effects only touch `state`, `started_at`,
`completed_at` and `error_message`. -/
theorem apply_transition_effects_fields (s : InterviewSession)
    (ns : InterviewState) (now : Nat) (em : Option String) :
    (apply_transition_effects s ns now em).questions = s.questions ∧
    (apply_transition_effects s ns now em).total_core_questions_asked =
      s.total_core_questions_asked ∧
    (apply_transition_effects s ns now em).total_followups_asked =
      s.total_followups_asked ∧
    (apply_transition_effects s ns now em).current_question_followups =
      s.current_question_followups ∧
    (apply_transition_effects s ns now em).current_question_context =
      s.current_question_context ∧
    (apply_transition_effects s ns now em).asked_question_hashes =
      s.asked_question_hashes ∧
    (apply_transition_effects s ns now em).asked_skills = s.asked_skills ∧
    (apply_transition_effects s ns now em).current_difficulty =
      s.current_difficulty ∧
    (apply_transition_effects s ns now em).difficulty_history =
      s.difficulty_history ∧
    (apply_transition_effects s ns now em).skill_scores = s.skill_scores ∧
    (apply_transition_effects s ns now em).setup = s.setup ∧
    (apply_transition_effects s ns now em).current_question_index =
      s.current_question_index := by
  unfold apply_transition_effects
  repeat' split
  all_goals exact ⟨rfl, rfl, rfl, rfl, rfl, rfl, rfl, rfl, rfl, rfl, rfl, rfl⟩

/-- `set_current_response` and `set_current_evaluation` only touch the
`questions` list. -/
theorem set_current_response_fields (s : InterviewSession)
    (t : Option String) (now : Nat) :
    (set_current_response s t now).total_core_questions_asked =
      s.total_core_questions_asked ∧
    (set_current_response s t now).total_followups_asked =
      s.total_followups_asked ∧
    (set_current_response s t now).current_question_followups =
      s.current_question_followups ∧
    (set_current_response s t now).current_question_context =
      s.current_question_context ∧
    (set_current_response s t now).asked_question_hashes =
      s.asked_question_hashes ∧
    (set_current_response s t now).current_difficulty =
      s.current_difficulty ∧
    (set_current_response s t now).skill_scores = s.skill_scores ∧
    (set_current_response s t now).setup = s.setup := by
  unfold set_current_response
  split
  · exact ⟨rfl, rfl, rfl, rfl, rfl, rfl, rfl, rfl⟩
  · exact ⟨rfl, rfl, rfl, rfl, rfl, rfl, rfl, rfl⟩

theorem set_current_evaluation_fields (s : InterviewSession)
    (ev : ResponseEvaluation) :
    (set_current_evaluation s ev).total_core_questions_asked =
      s.total_core_questions_asked ∧
    (set_current_evaluation s ev).total_followups_asked =
      s.total_followups_asked ∧
    (set_current_evaluation s ev).current_question_followups =
      s.current_question_followups ∧
    (set_current_evaluation s ev).current_question_context =
      s.current_question_context ∧
    (set_current_evaluation s ev).asked_question_hashes =
      s.asked_question_hashes ∧
    (set_current_evaluation s ev).current_difficulty =
      s.current_difficulty ∧
    (set_current_evaluation s ev).skill_scores = s.skill_scores ∧
    (set_current_evaluation s ev).setup = s.setup := by
  unfold set_current_evaluation
  split
  · exact ⟨rfl, rfl, rfl, rfl, rfl, rfl, rfl, rfl⟩
  · exact ⟨rfl, rfl, rfl, rfl, rfl, rfl, rfl, rfl⟩

/-- Replacing a list entry by one with the same `p`-value preserves
`countP`. -/
theorem countP_set_eq {α : Type} (p : α → Bool) (l : List α) (i : Nat)
    (a b : α) (h : l.get? i = some a) (hp : p b = p a) :
    (l.set i b).countP p = l.countP p := by
  induction l generalizing i with
  | nil => simp at h
  | cons x xs ih =>
    cases i with
    | zero =>
      simp only [List.get?] at h
      cases h
      simp [List.set, List.countP_cons, hp]
    | succ n =>
      simp only [List.get?] at h
      simp [List.set, List.countP_cons, ih n h]

/-- The in-place response/evaluation updates of `submit_response` change
neither the length of the question sequence nor its follow-up counts. -/
theorem set_current_response_questions (s : InterviewSession)
    (t : Option String) (now : Nat) :
    (set_current_response s t now).questions.length = s.questions.length ∧
    (set_current_response s t now).questions.countP (fun q => !q.is_followup) =
      s.questions.countP (fun q => !q.is_followup) := by
  unfold set_current_response
  split
  · exact ⟨rfl, rfl⟩
  next cq hcq =>
    constructor
    · simp [List.length_set]
    · exact countP_set_eq _ _ _ cq _ hcq rfl

theorem set_current_evaluation_questions (s : InterviewSession)
    (ev : ResponseEvaluation) :
    (set_current_evaluation s ev).questions.length = s.questions.length ∧
    (set_current_evaluation s ev).questions.countP (fun q => !q.is_followup) =
      s.questions.countP (fun q => !q.is_followup) := by
  unfold set_current_evaluation
  split
  · exact ⟨rfl, rfl⟩
  next cq hcq =>
    constructor
    · simp [List.length_set]
    · exact countP_set_eq _ _ _ cq _ hcq rfl

/-!  ## C5 — counters partition the question sequence  -/

/-- The invariant of C5: the two counters split the length of the question
sequence, with the core counter counting exactly the non-follow-up
entries. -/
def counters_partition (s : InterviewSession) : Prop :=
  s.total_core_questions_asked + s.total_followups_asked =
    s.questions.length ∧
  s.total_core_questions_asked =
    s.questions.countP (fun q => !q.is_followup)

theorem add_question_partition (s : InterviewSession) (q : QuestionResponse)
    (h : counters_partition s) : counters_partition (s.add_question q) := by
  obtain ⟨h1, h2⟩ := h
  cases hq : q.is_followup <;>
    simp [counters_partition, InterviewSession.add_question, hq,
      List.countP_append, List.countP_cons] <;>
    omega

theorem stepClosed_partition : StepClosed counters_partition := by
  intro s s' hstep hP
  cases hstep with
  | transition ns now em =>
    have hf := apply_transition_effects_fields s ns now em
    exact ⟨by rw [hf.1, hf.2.1, hf.2.2.1]; exact hP.1,
           by rw [hf.1, hf.2.1]; exact hP.2⟩
  | ask q => exact add_question_partition s q hP
  | respondCtx t => exact hP
  | setResponse t now =>
    have hq := set_current_response_questions s t now
    have hf := set_current_response_fields s t now
    exact ⟨by rw [hf.1, hf.2.1, hq.1]; exact hP.1,
           by rw [hf.1, hq.2]; exact hP.2⟩
  | setEval ev =>
    have hq := set_current_evaluation_questions s ev
    have hf := set_current_evaluation_fields s ev
    exact ⟨by rw [hf.1, hf.2.1, hq.1]; exact hP.1,
           by rw [hf.1, hq.2]; exact hP.2⟩
  | foldScores ev => exact hP
  | adapt d => exact hP
  | stamp now => exact hP

/-- C5: the counter-partition invariant — established at session creation,
preserved by `add_question` (hence by any sequence of `add_question`) and by
every orchestrator operation on the store. -/
theorem C5_counters_partition :
    (∀ (o : Orchestrator) (setup : InterviewSetup) (sid : String) (now : Nat),
      counters_partition (create_session o setup sid now).2)
  ∧ (∀ (s : InterviewSession) (q : QuestionResponse),
      counters_partition s → counters_partition (s.add_question q))
  ∧ (∀ (s : InterviewSession) (qs : List QuestionResponse),
      counters_partition s →
      counters_partition (qs.foldl InterviewSession.add_question s))
  ∧ (∀ (o : Orchestrator) (setup : InterviewSetup) (sid : String) (now : Nat),
      store_inv counters_partition o →
      store_inv counters_partition (create_session o setup sid now).1)
  ∧ (∀ (o : Orchestrator) (now : Nat) (sid : String) (ns : InterviewState)
      (em : Option String) (o' : Orchestrator) (s' : InterviewSession),
      wf_store o → transition_state o now sid ns em = .ok (o', s') →
      store_inv counters_partition o → store_inv counters_partition o')
  ∧ (∀ (o : Orchestrator) (now rand : Nat) (uid sid : String)
      (o' : Orchestrator) (a : ActionResult),
      wf_store o → start_interview o now rand uid sid = .ok (o', a) →
      store_inv counters_partition o → store_inv counters_partition o')
  ∧ (∀ (o : Orchestrator) (now rand : Nat) (uid sid : String)
      (o' : Orchestrator) (a : ActionResult),
      wf_store o → ask_next_question o now rand uid sid = .ok (o', a) →
      store_inv counters_partition o → store_inv counters_partition o')
  ∧ (∀ (o : Orchestrator) (now : Nat) (session : InterviewSession)
      (ev : ResponseEvaluation) (o' : Orchestrator) (a : ActionResult),
      wf_store o → get_session o session.session_id = some session →
      ask_followup o now session ev = .ok (o', a) →
      store_inv counters_partition o → store_inv counters_partition o')
  ∧ (∀ (o : Orchestrator) (now rand : Nat) (uid : String)
      (session : InterviewSession) (ev : ResponseEvaluation)
      (o' : Orchestrator) (a : ActionResult),
      wf_store o → get_session o session.session_id = some session →
      decide_next_action o now rand uid session ev = .ok (o', a) →
      store_inv counters_partition o → store_inv counters_partition o')
  ∧ (∀ (o : Orchestrator) (now rand : Nat) (uid sid : String)
      (audio : Option String) (transcript : Option String)
      (o' : Orchestrator) (a : ActionResult),
      wf_store o →
      submit_response o now rand uid sid audio transcript = .ok (o', a) →
      store_inv counters_partition o → store_inv counters_partition o')
  ∧ (∀ (o : Orchestrator) (now : Nat) (sid reason : String)
      (o' : Orchestrator) (a : ActionResult),
      wf_store o → end_interview o now sid reason = .ok (o', a) →
      store_inv counters_partition o → store_inv counters_partition o')
  ∧ (∀ (o : Orchestrator) (now : Nat) (sid : String)
      (o' : Orchestrator) (r : InterviewReport),
      wf_store o → generate_report o now sid = .ok (o', r) →
      store_inv counters_partition o → store_inv counters_partition o') := by
  refine ⟨fun o setup sid now => ⟨rfl, rfl⟩,
    fun s q => add_question_partition s q, ?_, ?_, ?_, ?_, ?_, ?_, ?_, ?_, ?_, ?_⟩
  · intro s qs
    induction qs generalizing s with
    | nil => exact id
    | cons q rest ih =>
      intro h
      exact ih (s.add_question q) (add_question_partition s q h)
  · intro o setup sid now hi sid' s' hget
    rw [create_session_get] at hget
    by_cases hs : sid' = sid
    · rw [if_pos hs] at hget
      cases hget
      exact ⟨rfl, rfl⟩
    · rw [if_neg hs] at hget
      exact hi sid' s' hget
  · intro o now sid ns em o' s' hwf h hi
    exact storeEvolves_preserves_inv stepClosed_partition
      (transition_state_evolves hwf h).1 hi
  · intro o now rand uid sid o' a hwf h hi
    exact storeEvolves_preserves_inv stepClosed_partition
      (start_interview_evolves hwf h).1 hi
  · intro o now rand uid sid o' a hwf h hi
    exact storeEvolves_preserves_inv stepClosed_partition
      (ask_next_question_evolves hwf h).1 hi
  · intro o now session ev o' a hwf hsess h hi
    exact storeEvolves_preserves_inv stepClosed_partition
      (ask_followup_evolves hwf hsess h).1 hi
  · intro o now rand uid session ev o' a hwf hsess h hi
    exact storeEvolves_preserves_inv stepClosed_partition
      (decide_next_action_evolves hwf hsess h).1 hi
  · intro o now rand uid sid audio transcript o' a hwf h hi
    exact storeEvolves_preserves_inv stepClosed_partition
      (submit_response_evolves hwf h).1 hi
  · intro o now sid reason o' a hwf h hi
    exact storeEvolves_preserves_inv stepClosed_partition
      (end_interview_evolves hwf h).1 hi
  · intro o now sid o' r hwf h hi
    exact storeEvolves_preserves_inv stepClosed_partition
      (generate_report_evolves hwf h).1 hi

/-- C5 witness: the partition invariant after appending a concrete core
question and a concrete follow-up to a fresh session. -/
theorem C5_counters_partition_witness :
    counters_partition
      (([qW, { qW with question_id := "q2", is_followup := true }] :
        List QuestionResponse).foldl InterviewSession.add_question sessW) :=
  C5_counters_partition.2.2.1 sessW
    [qW, { qW with question_id := "q2", is_followup := true }] ⟨rfl, rfl⟩

/-!  ## C6 — difficulty clamp  -/

/-- The invariant of C6. -/
def difficulty_in_range (s : InterviewSession) : Prop :=
  1 ≤ s.current_difficulty ∧ s.current_difficulty ≤ 10

theorem adapt_difficulty_range (d delta : Int) :
    1 ≤ adapt_difficulty d delta ∧ adapt_difficulty d delta ≤ 10 := by
  unfold adapt_difficulty
  constructor
  · exact le_max_left 1 _
  · exact max_le (by norm_num) (min_le_left 10 _)

theorem stepClosed_difficulty : StepClosed difficulty_in_range := by
  intro s s' hstep hP
  cases hstep with
  | transition ns now em =>
    have hf := apply_transition_effects_fields s ns now em
    exact ⟨by rw [hf.2.2.2.2.2.2.2.1]; exact hP.1,
           by rw [hf.2.2.2.2.2.2.2.1]; exact hP.2⟩
  | ask q =>
    have hd : (s.add_question q).current_difficulty = s.current_difficulty := by
      unfold InterviewSession.add_question
      split <;> split <;> rfl
    exact ⟨by rw [hd]; exact hP.1, by rw [hd]; exact hP.2⟩
  | respondCtx t => exact hP
  | setResponse t now =>
    have hf := set_current_response_fields s t now
    exact ⟨by rw [hf.2.2.2.2.2.1]; exact hP.1,
           by rw [hf.2.2.2.2.2.1]; exact hP.2⟩
  | setEval ev =>
    have hf := set_current_evaluation_fields s ev
    exact ⟨by rw [hf.2.2.2.2.2.1]; exact hP.1,
           by rw [hf.2.2.2.2.2.1]; exact hP.2⟩
  | foldScores ev => exact hP
  | adapt d => exact adapt_difficulty_range s.current_difficulty d
  | stamp now => exact hP

/-- C6: the difficulty stays clamped to [1,10] — the single adaptation step
lands in [1,10], any fold of adaptation steps starting in [1,10] with deltas
in [-2,2] stays in [1,10], the per-role initial difficulty is in [1,10], and
the post-evaluation decision step (`_decide_next_action`, which performs the
adaptation) and `submit_response` (which invokes it) keep every stored
session's difficulty in [1,10]. -/
theorem C6_difficulty_clamp :
    (∀ (d delta : Int), -2 ≤ delta → delta ≤ 2 →
      1 ≤ adapt_difficulty d delta ∧ adapt_difficulty d delta ≤ 10)
  ∧ (∀ (d : Int) (deltas : List Int), 1 ≤ d → d ≤ 10 →
      (∀ delta ∈ deltas, -2 ≤ delta ∧ delta ≤ 2) →
      1 ≤ deltas.foldl adapt_difficulty d ∧
        deltas.foldl adapt_difficulty d ≤ 10)
  ∧ (∀ (o : Orchestrator) (setup : InterviewSetup) (sid : String) (now : Nat),
      1 ≤ (create_session o setup sid now).2.current_difficulty ∧
        (create_session o setup sid now).2.current_difficulty ≤ 10)
  ∧ (∀ (o : Orchestrator) (now rand : Nat) (uid : String)
      (session : InterviewSession) (ev : ResponseEvaluation)
      (o' : Orchestrator) (a : ActionResult),
      wf_store o → get_session o session.session_id = some session →
      -2 ≤ ev.difficulty_delta → ev.difficulty_delta ≤ 2 →
      decide_next_action o now rand uid session ev = .ok (o', a) →
      store_inv difficulty_in_range o → store_inv difficulty_in_range o')
  ∧ (∀ (o : Orchestrator) (now rand : Nat) (uid sid : String)
      (audio : Option String) (transcript : Option String)
      (o' : Orchestrator) (a : ActionResult),
      wf_store o →
      submit_response o now rand uid sid audio transcript = .ok (o', a) →
      store_inv difficulty_in_range o → store_inv difficulty_in_range o') := by
  refine ⟨fun d delta _ _ => adapt_difficulty_range d delta, ?_, ?_, ?_, ?_⟩
  · intro d deltas
    induction deltas generalizing d with
    | nil => exact fun h1 h2 _ => ⟨h1, h2⟩
    | cons delta rest ih =>
      intro _ _ hmem
      simp only [List.foldl_cons]
      have hr := adapt_difficulty_range d delta
      exact ih (adapt_difficulty d delta) hr.1 hr.2
        (fun x hx => hmem x (List.mem_cons_of_mem delta hx))
  · intro o setup sid now
    cases hr : setup.target_role <;> simp [create_session, hr]
  · intro o now rand uid session ev o' a hwf hsess _ _ h hi
    exact storeEvolves_preserves_inv stepClosed_difficulty
      (decide_next_action_evolves hwf hsess h).1 hi
  · intro o now rand uid sid audio transcript o' a hwf h hi
    exact storeEvolves_preserves_inv stepClosed_difficulty
      (submit_response_evolves hwf h).1 hi

/-- C6 witness: a concrete clamped fold with deltas in [-2,2]. -/
theorem C6_difficulty_clamp_witness :
    1 ≤ ([2, 2, 2, -2, 2] : List Int).foldl adapt_difficulty 5 ∧
    ([2, 2, 2, -2, 2] : List Int).foldl adapt_difficulty 5 ≤ 10 :=
  C6_difficulty_clamp.2.1 5 [2, 2, 2, -2, 2] (by norm_num) (by norm_num)
    (by decide)

/-!  ## C7 — dedup monotonicity  -/

theorem contains_setInsert_self (l : List String) (x : String) :
    (setInsert l x).contains x = true := by
  unfold setInsert
  by_cases h : l.contains x = true
  · rw [if_pos h]
    exact h
  · rw [if_neg h]
    simp [List.elem_iff]

theorem contains_setInsert_mono (l : List String) (x y : String)
    (h : l.contains y = true) : (setInsert l x).contains y = true := by
  unfold setInsert
  by_cases hc : l.contains x = true
  · rw [if_pos hc]
    exact h
  · rw [if_neg hc]
    simp only [List.elem_iff] at h ⊢
    exact List.mem_append_left _ h

theorem add_question_hashes (s : InterviewSession) (q : QuestionResponse) :
    (s.add_question q).asked_question_hashes =
      setInsert s.asked_question_hashes
        (normalize_question q.question_text) := by
  unfold InterviewSession.add_question
  split <;> split <;> rfl

theorem add_question_asked_self (s : InterviewSession)
    (q : QuestionResponse) :
    (s.add_question q).is_question_asked q.question_text = true := by
  unfold InterviewSession.is_question_asked
  rw [add_question_hashes]
  exact contains_setInsert_self _ _

theorem stepClosed_asked (t : String) :
    StepClosed (fun s => s.is_question_asked t = true) := by
  intro s s' hstep hP
  cases hstep with
  | transition ns now em =>
    have hf := apply_transition_effects_fields s ns now em
    unfold InterviewSession.is_question_asked at *
    rw [hf.2.2.2.2.2.1]
    exact hP
  | ask q =>
    unfold InterviewSession.is_question_asked at *
    rw [add_question_hashes]
    exact contains_setInsert_mono _ _ _ hP
  | respondCtx v => exact hP
  | setResponse v now =>
    have hf := set_current_response_fields s v now
    unfold InterviewSession.is_question_asked at *
    rw [hf.2.2.2.2.1]
    exact hP
  | setEval ev =>
    have hf := set_current_evaluation_fields s ev
    unfold InterviewSession.is_question_asked at *
    rw [hf.2.2.2.2.1]
    exact hP
  | foldScores ev => exact hP
  | adapt d => exact hP
  | stamp now => exact hP

/-- Along a store evolution, a question once marked asked stays asked in the
session stored under the same key. -/
theorem storeEvolves_mono_asked {o o' : Orchestrator}
    (he : StoreEvolves o o') (sid : String) (s s' : InterviewSession)
    (t : String) (h1 : get_session o sid = some s)
    (h2 : get_session o' sid = some s')
    (ha : s.is_question_asked t = true) :
    s'.is_question_asked t = true := by
  obtain ⟨s0, h0, hr⟩ := he sid s' h2
  rw [h1] at h0
  cases h0
  exact reaches_preserves (stepClosed_asked t) hr ha

/-- C7: `is_question_asked` on a question's text is true immediately after
`add_question` with that text, and stays true for the rest of the session:
the hash set only grows under `add_question` (hence under any sequence of
them), and every orchestrator operation preserves it on the stored
session. -/
theorem C7_dedup_monotonicity :
    (∀ (s : InterviewSession) (q : QuestionResponse),
      (s.add_question q).is_question_asked q.question_text = true)
  ∧ (∀ (s : InterviewSession) (q : QuestionResponse) (t : String),
      s.is_question_asked t = true →
      (s.add_question q).is_question_asked t = true)
  ∧ (∀ (s : InterviewSession) (qs : List QuestionResponse) (t : String),
      s.is_question_asked t = true →
      (qs.foldl InterviewSession.add_question s).is_question_asked t = true)
  ∧ (∀ (s : InterviewSession) (q : QuestionResponse) (h : String),
      h ∈ s.asked_question_hashes →
      h ∈ (s.add_question q).asked_question_hashes)
  ∧ (∀ (o : Orchestrator) (now rand : Nat) (uid sid : String)
      (o' : Orchestrator) (a : ActionResult) (key t : String)
      (s s' : InterviewSession),
      wf_store o → ask_next_question o now rand uid sid = .ok (o', a) →
      get_session o key = some s → get_session o' key = some s' →
      s.is_question_asked t = true → s'.is_question_asked t = true)
  ∧ (∀ (o : Orchestrator) (now : Nat) (session : InterviewSession)
      (ev : ResponseEvaluation) (o' : Orchestrator) (a : ActionResult)
      (key t : String) (s s' : InterviewSession),
      wf_store o → get_session o session.session_id = some session →
      ask_followup o now session ev = .ok (o', a) →
      get_session o key = some s → get_session o' key = some s' →
      s.is_question_asked t = true → s'.is_question_asked t = true)
  ∧ (∀ (o : Orchestrator) (now rand : Nat) (uid : String)
      (session : InterviewSession) (ev : ResponseEvaluation)
      (o' : Orchestrator) (a : ActionResult) (key t : String)
      (s s' : InterviewSession),
      wf_store o → get_session o session.session_id = some session →
      decide_next_action o now rand uid session ev = .ok (o', a) →
      get_session o key = some s → get_session o' key = some s' →
      s.is_question_asked t = true → s'.is_question_asked t = true)
  ∧ (∀ (o : Orchestrator) (now rand : Nat) (uid sid : String)
      (audio : Option String) (transcript : Option String)
      (o' : Orchestrator) (a : ActionResult) (key t : String)
      (s s' : InterviewSession),
      wf_store o →
      submit_response o now rand uid sid audio transcript = .ok (o', a) →
      get_session o key = some s → get_session o' key = some s' →
      s.is_question_asked t = true → s'.is_question_asked t = true)
  ∧ (∀ (o : Orchestrator) (now : Nat) (sid : String) (ns : InterviewState)
      (em : Option String) (o' : Orchestrator) (s1 : InterviewSession)
      (key t : String) (s s' : InterviewSession),
      wf_store o → transition_state o now sid ns em = .ok (o', s1) →
      get_session o key = some s → get_session o' key = some s' →
      s.is_question_asked t = true → s'.is_question_asked t = true)
  ∧ (∀ (o : Orchestrator) (now : Nat) (sid reason : String)
      (o' : Orchestrator) (a : ActionResult) (key t : String)
      (s s' : InterviewSession),
      wf_store o → end_interview o now sid reason = .ok (o', a) →
      get_session o key = some s → get_session o' key = some s' →
      s.is_question_asked t = true → s'.is_question_asked t = true)
  ∧ (∀ (o : Orchestrator) (now : Nat) (sid : String)
      (o' : Orchestrator) (r : InterviewReport) (key t : String)
      (s s' : InterviewSession),
      wf_store o → generate_report o now sid = .ok (o', r) →
      get_session o key = some s → get_session o' key = some s' →
      s.is_question_asked t = true → s'.is_question_asked t = true) := by
  refine ⟨add_question_asked_self, ?_, ?_, ?_, ?_, ?_, ?_, ?_, ?_, ?_, ?_⟩
  · intro s q t h
    exact stepClosed_asked t s _ (SessionStep.ask s q) h
  · intro s qs
    induction qs generalizing s with
    | nil => exact fun t => id
    | cons q rest ih =>
      intro t h
      exact ih (s.add_question q) t
        (stepClosed_asked t s _ (SessionStep.ask s q) h)
  · intro s q h hmem
    rw [add_question_hashes]
    unfold setInsert
    split
    · exact hmem
    · exact List.mem_append_left _ hmem
  · intro o now rand uid sid o' a key t s s' hwf h h1 h2 ha
    exact storeEvolves_mono_asked (ask_next_question_evolves hwf h).1
      key s s' t h1 h2 ha
  · intro o now session ev o' a key t s s' hwf hsess h h1 h2 ha
    exact storeEvolves_mono_asked (ask_followup_evolves hwf hsess h).1
      key s s' t h1 h2 ha
  · intro o now rand uid session ev o' a key t s s' hwf hsess h h1 h2 ha
    exact storeEvolves_mono_asked (decide_next_action_evolves hwf hsess h).1
      key s s' t h1 h2 ha
  · intro o now rand uid sid audio transcript o' a key t s s' hwf h h1 h2 ha
    exact storeEvolves_mono_asked (submit_response_evolves hwf h).1
      key s s' t h1 h2 ha
  · intro o now sid ns em o' s1 key t s s' hwf h h1 h2 ha
    exact storeEvolves_mono_asked (transition_state_evolves hwf h).1
      key s s' t h1 h2 ha
  · intro o now sid reason o' a key t s s' hwf h h1 h2 ha
    exact storeEvolves_mono_asked (end_interview_evolves hwf h).1
      key s s' t h1 h2 ha
  · intro o now sid o' r key t s s' hwf h h1 h2 ha
    exact storeEvolves_mono_asked (generate_report_evolves hwf h).1
      key s s' t h1 h2 ha

/-- C7 witness: a concrete question stays marked as asked after a further
`add_question`. -/
theorem C7_dedup_monotonicity_witness :
    ((sessW.add_question qW).add_question
      { qW with question_id := "q2",
                question_text := "How would you optimize a slow-running Spark job?" }
      ).is_question_asked "Design an ETL pipeline." = true :=
  C7_dedup_monotonicity.2.1 (sessW.add_question qW) _
    "Design an ETL pipeline." (by decide)

/-!  ## C1 — transition legality and diagnosability  -/

/-- `part` occurs as a contiguous substring of `msg`. -/
def msgContains (msg part : String) : Prop :=
  ∃ pre post, pre ++ part.data ++ post = msg.data

theorem string_data_append (a b : String) :
    (a ++ b).data = a.data ++ b.data := rfl

theorem renderStatesInner_contains {st : InterviewState} :
    ∀ (l : List InterviewState), st ∈ l →
      ∃ pre post,
        pre ++ (stateName st).data ++ post = (renderStatesInner l).data
  | [], h => absurd h (List.not_mem_nil st)
  | [x], h => by
      have hx : st = x := by simpa using h
      subst hx
      exact ⟨[], [], by simp [renderStatesInner]⟩
  | x :: y :: rest, h => by
      rcases List.mem_cons.mp h with h1 | h2
      · subst h1
        refine ⟨[], (", " ++ renderStatesInner (y :: rest)).data, ?_⟩
        simp [renderStatesInner, string_data_append]
      · obtain ⟨pre, post, hpp⟩ := renderStatesInner_contains (y :: rest) h2
        refine ⟨(stateName x ++ ", ").data ++ pre, post, ?_⟩
        simp only [renderStatesInner, string_data_append, List.append_assoc,
          hpp]

/-- The `StateTransitionError` message carries the current state, the
attempted state, and every member of the allowed set. -/
theorem invalidTransitionMessage_contains (old ns : InterviewState)
    (valid : List InterviewState) :
    msgContains (invalidTransitionMessage old ns valid) (stateName old) ∧
    msgContains (invalidTransitionMessage old ns valid) (stateName ns) ∧
    ∀ st ∈ valid,
      msgContains (invalidTransitionMessage old ns valid) (stateName st) := by
  refine ⟨?_, ?_, ?_⟩
  · refine ⟨("Invalid transition from" ++ " ").data,
      (" to " ++ stateName ns ++ ". Valid transitions: " ++
        renderStateList valid).data, ?_⟩
    simp [invalidTransitionMessage, string_data_append, List.append_assoc]
  · refine ⟨("Invalid transition from " ++ stateName old ++ " to" ++ " ").data,
      (". Valid transitions: " ++ renderStateList valid).data, ?_⟩
    simp [invalidTransitionMessage, string_data_append, List.append_assoc]
  · intro st hst
    obtain ⟨pre, post, hpp⟩ := renderStatesInner_contains valid hst
    refine ⟨("Invalid transition from " ++ stateName old ++ " to " ++
      stateName ns ++ ". Valid transitions: " ++ "[").data ++ pre,
      post ++ ("]").data, ?_⟩
    simp only [invalidTransitionMessage, renderStateList,
      string_data_append, List.append_assoc, ← hpp]

/-- With no AI reasoning collaborator configured the trace block of
`transition_state` performs no call and cannot raise. -/
theorem end_trace_result_none {o : Orchestrator} (hai : o.ai_reasoning = none)
    (sid : String) (T : InterviewState) :
    end_trace_result o sid T = Except.ok () := by
  cases T <;> simp [end_trace_result, hai]

/-- C1: the transition table governs `transition_state` as claimed only in
the failure direction.  (1) For a stored session and a target `T` outside
the allowed set of the current state, the call fails with a
`StateTransitionError` whose message carries the current state, the
attempted state and the full allowed set (the source raises before any
mutation, so the state is unchanged).  (2) The claimed equivalence
"succeeds iff `T` is allowed" holds when no AI reasoning collaborator is
configured.  (3) It fails on the shipped code: on entering COMPLETE or
ERROR the orchestrator calls `end_interview_trace` on the configured AI
reasoning collaborator with no try/except, `AIReasoningLayer` defines no
such method (the call raises `AttributeError`), and
`src/api/dependencies.py` injects exactly that layer — so every allowed
transition to COMPLETE or ERROR fails with the propagated exception even
though `T` is in the allowed set, after the source has already mutated the
stored session's state in place. -/
theorem C1_transition_validity (o : Orchestrator) (sid : String)
    (s : InterviewSession) (now : Nat) (T : InterviewState)
    (h : get_session o sid = some s) :
    (T ∉ VALID_TRANSITIONS s.state →
      transition_state o now sid T none =
        .error (.stateTransition
          (invalidTransitionMessage s.state T (VALID_TRANSITIONS s.state))) ∧
      msgContains
        (invalidTransitionMessage s.state T (VALID_TRANSITIONS s.state))
        (stateName s.state) ∧
      msgContains
        (invalidTransitionMessage s.state T (VALID_TRANSITIONS s.state))
        (stateName T) ∧
      ∀ st ∈ VALID_TRANSITIONS s.state,
        msgContains
          (invalidTransitionMessage s.state T (VALID_TRANSITIONS s.state))
          (stateName st))
  ∧ (o.ai_reasoning = none →
      ((∃ res, transition_state o now sid T none = .ok res) ↔
        T ∈ VALID_TRANSITIONS s.state))
  ∧ (∀ ai msg, o.ai_reasoning = some ai →
      ai.end_interview_trace sid = .error msg →
      (T = InterviewState.COMPLETE ∨ T = InterviewState.ERROR) →
      T ∈ VALID_TRANSITIONS s.state →
      transition_state o now sid T none = .error (.pythonError msg)) := by
  refine ⟨?_, ?_, ?_⟩
  · intro hv
    have hmsg := invalidTransitionMessage_contains s.state T
      (VALID_TRANSITIONS s.state)
    refine ⟨?_, hmsg.1, hmsg.2.1, hmsg.2.2⟩
    unfold transition_state
    rw [h]
    dsimp only
    rw [if_neg hv]
  · intro hai
    constructor
    · rintro ⟨res, hres⟩
      obtain ⟨o2, s2⟩ := res
      obtain ⟨s0, hg0, hv, _, _⟩ := transition_state_ok hres
      rw [h] at hg0
      cases hg0
      exact hv
    · intro hv
      refine ⟨(update_session o (apply_transition_effects s T now none),
        apply_transition_effects s T now none), ?_⟩
      unfold transition_state
      rw [h]
      dsimp only
      rw [if_pos hv, end_trace_result_none hai sid T]
  · intro ai msg hai htr hT hv
    unfold transition_state
    rw [h]
    dsimp only
    rw [if_pos hv]
    have htrace : end_trace_result o sid T = .error msg := by
      rcases hT with rfl | rfl <;> simp [end_trace_result, hai, htr]
    rw [htrace]

/-- A fixture for the shipped AI reasoning collaborator as the transition
path sees it: both trace hooks raise the missing-attribute error (the
generation callables are irrelevant on this path and return fixed
payloads). -/
def aiShipped : AIReasoningI :=
  { generate_question := fun _ =>
      { id := "qf", text := "t", category := .SQL, skill_id := "sql_basics",
        difficulty := .MEDIUM, difficulty_score := 5 },
    generate_followup := fun _ _ => { should_followup := false, reason := "r" },
    start_interview_trace := missingTraceMethod "start_interview_trace",
    end_interview_trace := missingTraceMethod "end_interview_trace" }

/-- A concrete store whose single session sits in READY, with the shipped
AI reasoning collaborator configured — the failing input of C1. -/
def sessRdy : InterviewSession := { sessW with state := .READY }

def orchBug : Orchestrator :=
  { ai_reasoning := some aiShipped, audio_processor := none,
    evaluation_engine := none, report_generator := none,
    sessions := [("s1", sessRdy)] }

/-- C1 witness at the concrete failing input: COMPLETE is an allowed
target from READY, yet with the shipped AI reasoning collaborator
configured the transition fails with the propagated `AttributeError` from
the missing `end_interview_trace` method. -/
theorem C1_transition_validity_witness :
    InterviewState.COMPLETE ∈ VALID_TRANSITIONS sessRdy.state ∧
    transition_state orchBug 3 "s1" InterviewState.COMPLETE none =
      .error (.pythonError
        ("AttributeError: 'AIReasoningLayer' object has no attribute '" ++
          "end_interview_trace" ++ "'")) :=
  ⟨by decide,
    (C1_transition_validity orchBug "s1" sessRdy 3
        InterviewState.COMPLETE rfl).2.2 aiShipped _ rfl rfl (Or.inl rfl)
      (by decide)⟩

/-!  ## C4 — the follow-up branch and its cap  -/

/-- Every successful `_ask_followup` returns a `followup` action. -/
theorem ask_followup_action {o : Orchestrator} {now : Nat}
    {session : InterviewSession} {evaluation : ResponseEvaluation}
    {o' : Orchestrator} {a : ActionResult}
    (h : ask_followup o now session evaluation = .ok (o', a)) :
    a.isFollowupAction = true := by
  unfold ask_followup at h
  split at h <;>
  · split at h
    · simp at h
    next cq hcq =>
      try dsimp only at h
      split at h
      · simp at h
      next audio_data haud =>
        split at h
        · simp at h
        next oA sA htA =>
          split at h
          · simp at h
          next o3 s3 htL =>
            simp only [Except.ok.injEq, Prod.mk.injEq] at h
            rw [← h.2]
            rfl

/-- A successful `ask_next_question` returns a `complete` or a `question`
action, never a `followup`. -/
theorem ask_next_question_action {o : Orchestrator} {now rand : Nat}
    {uid sid : String} {o' : Orchestrator} {a : ActionResult}
    (h : ask_next_question o now rand uid sid = .ok (o', a)) :
    a.isFollowupAction = false := by
  unfold ask_next_question at h
  split at h
  · simp at h
  next session hg =>
    split at h
    · split at h
      · simp at h
      next pr ht =>
        simp only [Except.ok.injEq, Prod.mk.injEq] at h
        rw [← h.2]
        rfl
    · split at h
      · simp at h
      next o1 s1 ht =>
        split at h <;>
        · split at h <;>
          · try dsimp only at h
            try simp at h
            try
              split at h
              · simp at h
              next o3 s3 ht2 =>
                simp only [Except.ok.injEq, Prod.mk.injEq] at h
                rw [← h.2]
                rfl
            try
              split at h
              · simp at h
              · split at h
                · simp at h
                next o3 s3 ht2 =>
                  simp only [Except.ok.injEq, Prod.mk.injEq] at h
                  rw [← h.2]
                  rfl

/-- C4: the post-evaluation decision policy takes the follow-up branch iff
`needs_followup` is true, the mode is `structured_followup`, and
`total_followups_asked < max_questions * 2`; when the guard fails — in
particular whenever `total_followups_asked` has reached the cap — the
decision never yields a follow-up action.  `add_question` never decreases
the counter (and never changes the setup), so once the cap is reached it
stays reached for the rest of the session. -/
theorem C4_followup_cap (o : Orchestrator) (now rand : Nat) (uid : String)
    (session : InterviewSession) (evaluation : ResponseEvaluation) :
    ((evaluation.needs_followup = true ∧
      session.setup.mode.value = "structured_followup" ∧
      session.total_followups_asked < session.setup.max_questions * 2) →
      decide_next_action o now rand uid session evaluation =
        ask_followup o now session evaluation)
  ∧ (∀ (o' : Orchestrator) (a : ActionResult),
      ask_followup o now session evaluation = .ok (o', a) →
      a.isFollowupAction = true)
  ∧ (¬(evaluation.needs_followup = true ∧
        session.setup.mode.value = "structured_followup" ∧
        session.total_followups_asked < session.setup.max_questions * 2) →
      ∀ (o' : Orchestrator) (a : ActionResult),
        decide_next_action o now rand uid session evaluation = .ok (o', a) →
        a.isFollowupAction = false)
  ∧ (session.setup.max_questions * 2 ≤ session.total_followups_asked →
      ∀ (o' : Orchestrator) (a : ActionResult),
        decide_next_action o now rand uid session evaluation = .ok (o', a) →
        a.isFollowupAction = false)
  ∧ (∀ q : QuestionResponse,
      session.total_followups_asked ≤
        (session.add_question q).total_followups_asked ∧
      (session.add_question q).setup = session.setup) := by
  have hguard : (evaluation.needs_followup = true ∧
      session.setup.mode.value = "structured_followup" ∧
      session.total_followups_asked < session.setup.max_questions * 2) ↔
      ((evaluation.needs_followup &&
        (session.setup.mode.value == "structured_followup") &&
        decide (session.total_followups_asked <
          session.setup.max_questions * 2)) = true) := by
    simp [Bool.and_eq_true, beq_iff_eq, decide_eq_true_eq, and_assoc]
  refine ⟨?_, fun o' a h => ask_followup_action h, ?_, ?_, ?_⟩
  · intro hc
    unfold decide_next_action
    rw [if_pos (hguard.mp hc)]
  · intro hc o' a h
    unfold decide_next_action at h
    rw [if_neg (fun hb => hc (hguard.mpr hb))] at h
    dsimp only at h
    split at h
    · split at h
      · simp at h
      next o2 s2 ht =>
        simp only [Except.ok.injEq, Prod.mk.injEq] at h
        rw [← h.2]
        rfl
    · exact ask_next_question_action h
  · intro hcap o' a h
    have hnc : ¬(evaluation.needs_followup = true ∧
        session.setup.mode.value = "structured_followup" ∧
        session.total_followups_asked < session.setup.max_questions * 2) :=
      fun hc => absurd hc.2.2 (not_lt.mpr hcap)
    unfold decide_next_action at h
    rw [if_neg (fun hb => hnc (hguard.mpr hb))] at h
    dsimp only at h
    split at h
    · split at h
      · simp at h
      next o2 s2 ht =>
        simp only [Except.ok.injEq, Prod.mk.injEq] at h
        rw [← h.2]
        rfl
    · exact ask_next_question_action h
  · intro q
    cases hq : q.is_followup <;>
      simp [InterviewSession.add_question, hq]

/-- A concrete weak evaluation used by witness instantiations. -/
def evalW : ResponseEvaluation :=
  { question_id := "q1", skill_id := "general", transcript := "hm",
    response_duration_seconds := 1,
    scores := { technical_correctness := 3, depth_of_understanding := 3,
                practical_experience := 3, communication_clarity := 3,
                confidence := 3 },
    feedback := {},
    needs_followup := true,
    followup_reason := some "Response could use more depth",
    difficulty_delta := -1 }

/-- A concrete store whose single session sits in the terminal state
FINISHED (no collaborators configured). -/
def sessFin : InterviewSession := { sessW with state := .FINISHED }

def orchFin : Orchestrator :=
  { ai_reasoning := none, audio_processor := none,
    evaluation_engine := none, report_generator := none,
    sessions := [("s1", sessFin)] }

/-- C4 witness: with a weak evaluation, `structured_followup` mode and the
counter below the cap, the decision policy takes the follow-up branch. -/
theorem C4_followup_cap_witness :
    decide_next_action orchFin 3 0 "u" sessW evalW =
      ask_followup orchFin 3 sessW evalW :=
  (C4_followup_cap orchFin 3 0 "u" sessW evalW).1 ⟨rfl, rfl, by decide⟩

/-!  ## C3 — generate_report gating  -/

/-- A concrete store whose single session sits in GENERATING_REPORT, used
by the C3 counterexample. -/
def sessGRc : InterviewSession := { sessW with state := .GENERATING_REPORT }

def orchGRc : Orchestrator :=
  { ai_reasoning := none, audio_processor := none,
    evaluation_engine := none, report_generator := none,
    sessions := [("g", sessGRc)] }

/-- C3 counterexample: with the session in GENERATING_REPORT — a state the
claim says must make `generate_report` succeed — the call instead fails
with a `StateTransitionError`, because GENERATING_REPORT →
GENERATING_REPORT is not in the transition table. -/
theorem C3_generate_report_counterexample :
    generate_report orchGRc 5 "g" =
      .error (.stateTransition
        (invalidTransitionMessage InterviewState.GENERATING_REPORT
          InterviewState.GENERATING_REPORT
          [InterviewState.FINISHED, InterviewState.ERROR])) := rfl

/-- C3 (amended): `generate_report` fails with `InterviewNotComplete` (the
`ValueError` "Interview must be complete to generate report") iff the
session's state is neither COMPLETE nor GENERATING_REPORT; from COMPLETE it
succeeds — transitioning COMPLETE → GENERATING_REPORT → FINISHED and
returning the payload produced by the report collaborator (or the built-in
mock) on the transitioned session; from GENERATING_REPORT it fails with
`InvalidTransition` instead, since GENERATING_REPORT has no self-loop in
the transition table. -/
theorem C3_generate_report_amended (o : Orchestrator) (now : Nat)
    (sid : String) (s : InterviewSession) (h : get_session o sid = some s)
    (hid : s.session_id = sid) :
    (generate_report o now sid =
        .error (.valueError "Interview must be complete to generate report") ↔
      (s.state ≠ .COMPLETE ∧ s.state ≠ .GENERATING_REPORT))
  ∧ (s.state = .COMPLETE →
      ∃ o2 s2, generate_report o now sid = .ok (o2,
          match o.report_generator with
          | some rg =>
            rg (apply_transition_effects s .GENERATING_REPORT now none)
          | none =>
            generate_mock_report
              (apply_transition_effects s .GENERATING_REPORT now none) now) ∧
        get_session o2 sid = some s2 ∧ s2.state = .FINISHED)
  ∧ (s.state = .GENERATING_REPORT →
      generate_report o now sid =
        .error (.stateTransition
          (invalidTransitionMessage .GENERATING_REPORT .GENERATING_REPORT
            [.FINISHED, .ERROR]))) := by
  have hcomplete : s.state = .COMPLETE →
      ∃ o2 s2, generate_report o now sid = .ok (o2,
          match o.report_generator with
          | some rg =>
            rg (apply_transition_effects s .GENERATING_REPORT now none)
          | none =>
            generate_mock_report
              (apply_transition_effects s .GENERATING_REPORT now none) now) ∧
        get_session o2 sid = some s2 ∧ s2.state = .FINISHED := by
    intro hst
    have ht1 : transition_state o now sid .GENERATING_REPORT none =
        .ok (update_session o
          (apply_transition_effects s .GENERATING_REPORT now none),
          apply_transition_effects s .GENERATING_REPORT now none) := by
      unfold transition_state
      rw [h]
      dsimp only
      rw [hst]
      rfl
    have hS1id : (apply_transition_effects s .GENERATING_REPORT now
        none).session_id = sid := by
      rw [apply_transition_effects_session_id, hid]
    have hget1 : get_session (update_session o
        (apply_transition_effects s .GENERATING_REPORT now none)) sid =
        some (apply_transition_effects s .GENERATING_REPORT now none) := by
      rw [get_update_session, if_pos hS1id.symm]
    have hst1 : (apply_transition_effects s .GENERATING_REPORT now
        none).state = .GENERATING_REPORT := rfl
    have ht2 : transition_state (update_session o
        (apply_transition_effects s .GENERATING_REPORT now none)) now sid
        .FINISHED none = .ok
          (update_session (update_session o
            (apply_transition_effects s .GENERATING_REPORT now none))
            (apply_transition_effects
              (apply_transition_effects s .GENERATING_REPORT now none)
              .FINISHED now none),
           apply_transition_effects
            (apply_transition_effects s .GENERATING_REPORT now none)
            .FINISHED now none) := by
      unfold transition_state
      rw [hget1]
      dsimp only
      rw [hst1]
      rfl
    refine ⟨update_session (update_session o
        (apply_transition_effects s .GENERATING_REPORT now none))
        (apply_transition_effects
          (apply_transition_effects s .GENERATING_REPORT now none)
          .FINISHED now none),
      apply_transition_effects
        (apply_transition_effects s .GENERATING_REPORT now none)
        .FINISHED now none, ?_, ?_, rfl⟩
    · unfold generate_report
      rw [h]
      dsimp only
      rw [if_neg (by rw [hst]; simp), ht1]
      dsimp only
      rw [ht2]
      rfl
    · rw [get_update_session, if_pos]
      rw [apply_transition_effects_session_id, hS1id]
  have hgr : s.state = .GENERATING_REPORT →
      generate_report o now sid =
        .error (.stateTransition
          (invalidTransitionMessage .GENERATING_REPORT .GENERATING_REPORT
            [.FINISHED, .ERROR])) := by
    intro hst
    have ht1 : transition_state o now sid .GENERATING_REPORT none =
        .error (.stateTransition
          (invalidTransitionMessage .GENERATING_REPORT .GENERATING_REPORT
            [.FINISHED, .ERROR])) := by
      unfold transition_state
      rw [h]
      dsimp only
      rw [hst]
      rfl
    unfold generate_report
    rw [h]
    dsimp only
    rw [if_neg (by rw [hst]; simp), ht1]
  refine ⟨⟨?_, ?_⟩, hcomplete, hgr⟩
  · intro heq
    constructor
    · intro hst
      obtain ⟨o2, s2, hok, _, _⟩ := hcomplete hst
      rw [hok] at heq
      exact absurd heq (by simp)
    · intro hst
      rw [hgr hst] at heq
      exact absurd heq (by simp)
  · intro ⟨h1, h2⟩
    unfold generate_report
    rw [h]
    dsimp only
    rw [if_pos]
    simp [h1, h2]

/-- C3 amended-theorem witness: from COMPLETE the report is generated and
the session ends FINISHED. -/
theorem C3_generate_report_amended_witness :
    ∃ o2 s2, generate_report
        { orchGRc with sessions := [("s1", { sessW with state := .COMPLETE })] }
        5 "s1" = .ok (o2,
          generate_mock_report
            (apply_transition_effects { sessW with state := .COMPLETE }
              .GENERATING_REPORT 5 none) 5) ∧
      get_session o2 "s1" = some s2 ∧ s2.state = .FINISHED :=
  (C3_generate_report_amended
    { orchGRc with sessions := [("s1", { sessW with state := .COMPLETE })] }
    5 "s1" { sessW with state := .COMPLETE } rfl rfl).2.1 rfl

/-!  ## C2 — audio failure and question delivery  -/

/-- A concrete audio collaborator that raises on every synthesis call. -/
def apRaise : AudioProcessorI :=
  { speech_to_text := fun _ => .ok "t",
    text_to_speech := fun _ => .error "tts boom" }

/-- A concrete READY session and an orchestrator configured with the
raising audio collaborator, used by the C2 counterexample. -/
def sessR : InterviewSession := { sessW with state := .READY }

def orchR : Orchestrator :=
  { ai_reasoning := none, audio_processor := some apRaise,
    evaluation_engine := none, report_generator := none,
    sessions := [("r", sessR)] }

/-- C2 counterexample: the session is READY and not ending, so a question
is due — but the audio collaborator raises, and instead of delivering the
question without audio, `ask_next_question` fails: the exception propagates
(the orchestrator has no try/except around the audio call) and no question
is delivered. -/
theorem C2_audio_counterexample :
    sessR.should_end_interview = false ∧
    ask_next_question orchR 1 0 "u" "r" =
      .error (.collaborator "tts boom") ∧
    ∀ res, ask_next_question orchR 1 0 "u" "r" ≠ .ok res := by
  refine ⟨rfl, rfl, fun res h => ?_⟩
  rw [show ask_next_question orchR 1 0 "u" "r" =
    .error (.collaborator "tts boom") from rfl] at h
  exact absurd h (by simp)

theorem update_session_audio (o : Orchestrator) (s : InterviewSession) :
    (update_session o s).audio_processor = o.audio_processor := rfl

/-- `transition_state` only fails with `ValueError`, `StateTransitionError`
or a propagated trace-hook exception — never with a `.collaborator`
exception from the audio path. -/
theorem transition_state_error_shape {o : Orchestrator} {now : Nat}
    {sid : String} {ns : InterviewState} {em : Option String} {e : OrchError}
    (h : transition_state o now sid ns em = .error e) :
    (∃ msg, e = .valueError msg) ∨ (∃ msg, e = .stateTransition msg) ∨
    (∃ msg, e = .pythonError msg) := by
  unfold transition_state at h
  split at h
  · simp only [Except.error.injEq] at h
    exact Or.inl ⟨_, h.symm⟩
  · dsimp only at h
    split at h
    · split at h
      · simp only [Except.error.injEq] at h
        exact Or.inr (Or.inr ⟨_, h.symm⟩)
      · simp at h
    · simp only [Except.error.injEq] at h
      exact Or.inr (Or.inl ⟨_, h.symm⟩)

/-- C2 (amended): resilience to audio failure lives inside
`AudioProcessor.text_to_speech`, not in the orchestrator.  (a) Whatever the
internal synthesis outcomes — including every caught exception —
`text_to_speech` returns a result whose `url` is `none`, so the stored
audio handle is absent; it never raises.  (b)/(c) Whenever the configured
audio collaborator returns a result instead of raising (as
`text_to_speech` always does), neither `ask_next_question` nor
`_ask_followup` can fail with a propagated collaborator exception; the
counterexample shows that a collaborator that does raise aborts delivery. -/
theorem C2_audio_degradation :
    (∀ (settings : TTSSettings) (text : String)
      (kokoro_outcome piper_outcome edge_outcome : Except String String),
      (text_to_speech settings text kokoro_outcome piper_outcome
        edge_outcome).url = none)
  ∧ (∀ (o : Orchestrator) (now rand : Nat) (uid sid : String)
      (ap : AudioProcessorI), o.audio_processor = some ap →
      (∀ t, ∃ d, ap.text_to_speech t = .ok d) →
      ∀ e, ask_next_question o now rand uid sid ≠
        .error (.collaborator e))
  ∧ (∀ (o : Orchestrator) (now : Nat) (session : InterviewSession)
      (evaluation : ResponseEvaluation) (ap : AudioProcessorI),
      o.audio_processor = some ap →
      (∀ t, ∃ d, ap.text_to_speech t = .ok d) →
      ∀ e, ask_followup o now session evaluation ≠
        .error (.collaborator e)) := by
  refine ⟨?_, ?_, ?_⟩
  · intro settings text k p e
    cases k <;> cases p <;> cases e <;>
    · unfold text_to_speech tts_kokoro tts_piper tts_edge
      dsimp only
      split
      · rfl
      · split <;> rfl
  · intro o now rand uid sid ap hap hok e hcontra
    unfold ask_next_question at hcontra
    split at hcontra
    · simp at hcontra
    next session hg =>
      split at hcontra
      · split at hcontra
        next e0 ht =>
          simp only [Except.error.injEq] at hcontra
          rw [hcontra] at ht
          rcases transition_state_error_shape ht with ⟨_, hm⟩ | ⟨_, hm⟩ | ⟨_, hm⟩ <;>
            simp at hm
        · simp at hcontra
      · split at hcontra
        next e0 ht =>
          simp only [Except.error.injEq] at hcontra
          rw [hcontra] at ht
          rcases transition_state_error_shape ht with ⟨_, hm⟩ | ⟨_, hm⟩ | ⟨_, hm⟩ <;>
            simp at hm
        next o1 s1 ht =>
          obtain ⟨s0, _, _, _, ho1⟩ := transition_state_ok ht
          split at hcontra <;>
          · try dsimp only at hcontra
            split at hcontra
            next e1 haud =>
              rw [ho1, update_session_audio, hap] at haud
              dsimp only at haud
              obtain ⟨d, hd⟩ := hok _
              rw [hd] at haud
              simp [Except.map] at haud
            next ad haud =>
              split at hcontra
              next e2 ht2 =>
                simp only [Except.error.injEq] at hcontra
                rw [hcontra] at ht2
                rcases transition_state_error_shape ht2 with
                  ⟨_, hm⟩ | ⟨_, hm⟩ | ⟨_, hm⟩ <;> simp at hm
              · simp at hcontra
  · intro o now session evaluation ap hap hok e hcontra
    unfold ask_followup at hcontra
    split at hcontra <;>
    · split at hcontra
      · simp at hcontra
      next cq hcq =>
        try dsimp only at hcontra
        split at hcontra
        next e1 haud =>
          rw [hap] at haud
          dsimp only at haud
          obtain ⟨d, hd⟩ := hok _
          rw [hd] at haud
          simp [Except.map] at haud
        next ad haud =>
          split at hcontra
          next e2 ht2 =>
            simp only [Except.error.injEq] at hcontra
            rw [hcontra] at ht2
            rcases transition_state_error_shape ht2 with
              ⟨_, hm⟩ | ⟨_, hm⟩ | ⟨_, hm⟩ <;> simp at hm
          next oA sA htA =>
            split at hcontra
            next e3 ht3 =>
              simp only [Except.error.injEq] at hcontra
              rw [hcontra] at ht3
              rcases transition_state_error_shape ht3 with
                ⟨_, hm⟩ | ⟨_, hm⟩ | ⟨_, hm⟩ <;> simp at hm
            · simp at hcontra

/-- A concrete non-raising audio collaborator: synthesis always degrades to
the Edge-TTS empty-audio fallback result. -/
def apDegraded : AudioProcessorI :=
  { speech_to_text := fun _ => .ok "t",
    text_to_speech := fun t => .ok
      (tts_edge ⟨"edge-tts", "male", 22050⟩ t (.error "down")) }

/-- C2 amended-theorem witness: with an audio collaborator that always
returns an empty-audio result, `ask_next_question` cannot fail with a
collaborator exception. -/
theorem C2_audio_degradation_witness :
    ∀ e, ask_next_question { orchR with audio_processor := some apDegraded }
      1 0 "u" "r" ≠ .error (.collaborator e) :=
  C2_audio_degradation.2.1
    { orchR with audio_processor := some apDegraded }
    1 0 "u" "r" apDegraded rfl (fun _ => ⟨_, rfl⟩)
/-!  ## C10 — heuristic evaluation mis-routes the skill id

`submit_response` calls `evaluate_response(question_id, transcript,
context)` without the `question` argument, so the engine's AI path (which
requires both an AI layer and a `Question`) is never taken from the
orchestrator: the heuristic fallback runs, and it assigns the evaluation to
the first not-yet-covered skill (or the literal `"general"`), not to the
skill of the question that was answered.  -/

/-- The answered question and session of the concrete C10 scenario: the
current question targets `spark_tuning` (already in `asked_skills`), while
`skill_scores` tracks only `sql_basics`. -/
def qH : QuestionResponse :=
  { question_id := "q1", question_text := "spark?",
    skill_id := some "spark_tuning", asked_at := 0 }

def sessH : InterviewSession :=
  { session_id := "h",
    setup := { setupW with mode := .STRUCTURED },
    created_at := 0,
    state := .LISTENING,
    questions := [qH],
    current_question_index := 0,
    total_core_questions_asked := 1,
    asked_skills := ["spark_tuning"],
    skill_scores := [("sql_basics", [])] }

/-- The evaluation engine with no AI reasoning layer. -/
def engH : EvaluationEngine := ⟨none⟩

theorem contains_false_not_mem {l : List String} {x : String}
    (h : l.contains x = false) : ¬ x ∈ l := by
  intro hx
  have h2 : l.contains x = true := List.elem_iff.mpr hx
  rw [h] at h2
  exact Bool.false_ne_true h2

/-- C10: (1) without an AI reasoning layer or without a `Question` object,
`evaluate_response` is the heuristic fallback; (2) the heuristic's
`skill_id` is the head of the context's `skills_remaining` (or `"general"`
when that list is empty) — independent of the question answered; (3) every
skill in `skills_remaining` is one that was never asked; (4) when the
evaluation's skill id is not a key of `skill_scores`,
`_update_running_scores` leaves `skill_scores` unchanged — the score is
dropped; (5) concretely, evaluating a response to the `spark_tuning`
question records the score under `sql_basics`, a skill never asked. -/
theorem C10_heuristic_skill_routing :
    (∀ (engine : EvaluationEngine) (question_id transcript : String)
      (context : InterviewContext) (question : Option Question),
      (engine.ai_reasoning = none ∨ question = none) →
      engine.evaluate_response question_id transcript context question =
        heuristic_evaluation question_id transcript context)
  ∧ (∀ (question_id transcript : String) (context : InterviewContext),
      (heuristic_evaluation question_id transcript context).skill_id =
        context.skills_remaining.headD "general")
  ∧ (∀ (s : InterviewSession) (x : String),
      x ∈ (build_context s).skills_remaining → ¬ x ∈ s.asked_skills)
  ∧ (∀ (s : InterviewSession) (ev : ResponseEvaluation),
      (s.skill_scores.map Prod.fst).contains ev.skill_id = false →
      (update_running_scores s ev).skill_scores = s.skill_scores)
  ∧ ((engH.evaluate_response "q1" "short answer" (build_context sessH)
        none).skill_id = "sql_basics" ∧
      sessH.get_current_question.map (fun q => q.skill_id) =
        some (some "spark_tuning") ∧
      sessH.asked_skills.contains "sql_basics" = false ∧
      (update_running_scores sessH
        (engH.evaluate_response "q1" "short answer" (build_context sessH)
          none)).skill_scores.map (fun kv => (kv.1, kv.2.length)) =
        [("sql_basics", 1)]) := by
  refine ⟨?_, ?_, ?_, ?_, ?_, ?_, ?_, ?_⟩
  · intro engine question_id transcript context question hnone
    rcases hnone with hn | hn
    · obtain ⟨air⟩ := engine
      simp only at hn
      subst hn
      rfl
    · subst hn
      obtain ⟨air⟩ := engine
      cases air <;> rfl
  · intro question_id transcript context
    unfold heuristic_evaluation
    cases context.skills_remaining <;> rfl
  · intro s x hmem hask
    unfold build_context at hmem
    simp only [List.mem_filter, Bool.not_eq_true'] at hmem
    exact contains_false_not_mem hmem.2 (List.mem_append_left _ hask)
  · intro s ev hc
    unfold update_running_scores
    rw [if_neg (by rw [hc]; exact Bool.false_ne_true)]
  · decide
  · decide
  · decide
  · decide

/-- C10 witness: with no AI layer (and no question object),
`evaluate_response` is the heuristic fallback at a concrete input. -/
theorem C10_heuristic_skill_routing_witness :
    engH.evaluate_response "q1" "short answer" (build_context sessH) none =
      heuristic_evaluation "q1" "short answer" (build_context sessH) :=
  C10_heuristic_skill_routing.1 engH "q1" "short answer"
    (build_context sessH) none (Or.inl rfl)
